import Mathlib

/-!
Verification development for the `pesca` aquaculture-monitoring repository.

The definitions below are a shallow embedding, over `ℚ`, of the parts of the
code that the verified properties talk about:

* `src/domain/enums.py` — the `Severity` enum;
* `config/settings.py` — `WATER_QUALITY_THRESHOLDS`;
* `src/domain/entities/sensor_reading.py` — `SensorReading` and its
  per-metric / aggregate status classification;
* `src/domain/use_cases/monitor_sensors_use_case.py` —
  `MonitorSensorsUseCase.execute` and its helpers;
* `run.py` — `SQLiteAlertRepo.resolve_open_by_type` and `auto_resolve_sweep`;
* `src/infrastructure/sensors/sensor_simulator.py` — the stateful sensor
  simulator (`generate_reading` and the event scheduler);
* `src/infrastructure/ai/genetic_feed_optimizer.py` — `GAConfig`,
  `_range_score`, `_env_multiplier`, `_score_candidate`, `optimize_feed`
  and `recommend_feed_plan`.

Modelling conventions:

* Python floats are embedded as rationals (`ℚ`); float literals such as
  `0.12` become the exact rational `12/100`.
* The transcendental library primitives (`math.exp`, `math.log1p`,
  `math.sin`, `math.pi`) are not exactly representable; they are passed in
  as explicit parameters, and theorems that depend on their behaviour
  state the (true-of-the-real-functions) facts they use as hypotheses.
* The pseudo-random source (`random.random`, `random.uniform`, ...) is
  modelled as an explicit draw stream `ℕ → ℚ` together with a cursor that
  each primitive advances, mirroring the sequential consumption of draws
  from one `random.Random` instance.
* Python code that can raise is embedded in `Except String`; code that
  cannot raise is embedded as a total function.
-/

/-! ## Severity enum (src/domain/enums.py) and thresholds (config/settings.py) -/

inductive Severity where
  | NORMAL
  | WARNING
  | CRITICAL
deriving DecidableEq, Repr

/-- `WATER_QUALITY_THRESHOLDS['temp_min']`. -/
def temp_min : ℚ := 24
/-- `WATER_QUALITY_THRESHOLDS['temp_max']`. -/
def temp_max : ℚ := 28
/-- `WATER_QUALITY_THRESHOLDS['ph_min']`. -/
def ph_min : ℚ := 13/2
/-- `WATER_QUALITY_THRESHOLDS['ph_max']`. -/
def ph_max : ℚ := 17/2
/-- `WATER_QUALITY_THRESHOLDS['oxygen_min']`. -/
def oxygen_min : ℚ := 70
/-- `WATER_QUALITY_THRESHOLDS['turbidez_max']`. -/
def turbidez_max : ℚ := 50

/-! ## SensorReading (src/domain/entities/sensor_reading.py)

Timestamps are irrelevant to every verified property; they are embedded as an
abstract `ℕ` tag so the record shape matches the dataclass. -/

structure SensorReading where
  tank_id : ℤ
  temperatura : ℚ
  ph : ℚ
  oxigenio : ℚ
  turbidez : ℚ
  timestamp : ℕ := 0
deriving DecidableEq, Repr

/-- The hard-limit validation performed by `SensorReading.__post_init__`
(out-of-range values raise `ValueError`, so only readings satisfying this
predicate are constructible). -/
def SensorReading.valid (r : SensorReading) : Prop :=
  (0 ≤ r.temperatura ∧ r.temperatura ≤ 50) ∧
  (0 ≤ r.ph ∧ r.ph ≤ 14) ∧
  (0 ≤ r.oxigenio ∧ r.oxigenio ≤ 100) ∧
  (0 ≤ r.turbidez ∧ r.turbidez ≤ 200)

instance (r : SensorReading) : Decidable r.valid := by
  unfold SensorReading.valid; infer_instance

/-- `SensorReading.status_temperatura`. -/
def status_temperatura (r : SensorReading) : Severity :=
  if temp_min ≤ r.temperatura ∧ r.temperatura ≤ temp_max then .NORMAL else .WARNING

/-- `SensorReading.status_ph`. -/
def status_ph (r : SensorReading) : Severity :=
  if ph_min ≤ r.ph ∧ r.ph ≤ ph_max then .NORMAL else .WARNING

/-- `SensorReading.status_oxigenio`. -/
def status_oxigenio (r : SensorReading) : Severity :=
  if r.oxigenio ≥ oxygen_min then .NORMAL else .WARNING

/-- `SensorReading.status_turbidez`. -/
def status_turbidez (r : SensorReading) : Severity :=
  if r.turbidez ≤ turbidez_max then .NORMAL else .WARNING

/-- `SensorReading.status_geral_severity`: CRITICAL if any metric is CRITICAL,
else WARNING if any metric is WARNING, else NORMAL. -/
def status_geral_severity (r : SensorReading) : Severity :=
  let s := [status_temperatura r, status_ph r, status_oxigenio r, status_turbidez r]
  if Severity.CRITICAL ∈ s then .CRITICAL
  else if Severity.WARNING ∈ s then .WARNING
  else .NORMAL

/-- C3: each per-metric classification returns NORMAL or WARNING, never
CRITICAL; hence the aggregate `status_geral_severity` never returns CRITICAL,
for every `SensorReading`. -/
theorem per_metric_status_never_critical (r : SensorReading) :
    (status_temperatura r = .NORMAL ∨ status_temperatura r = .WARNING) ∧
    (status_ph r = .NORMAL ∨ status_ph r = .WARNING) ∧
    (status_oxigenio r = .NORMAL ∨ status_oxigenio r = .WARNING) ∧
    (status_turbidez r = .NORMAL ∨ status_turbidez r = .WARNING) ∧
    status_geral_severity r ≠ .CRITICAL := by
  unfold status_geral_severity status_temperatura status_ph status_oxigenio status_turbidez
  split_ifs <;> simp_all

/-- Witness for `per_metric_status_never_critical` at a concrete reading. -/
theorem per_metric_status_never_critical_witness :
    status_geral_severity ⟨1, 26, 7, 80, 10, 0⟩ ≠ .CRITICAL :=
  (per_metric_status_never_critical ⟨1, 26, 7, 80, 10, 0⟩).2.2.2.2

/-! ## Alert records and repositories

`alerts` rows carry `resolved`/`resolved_at` columns (run.py schema);
`MonitorSensorsUseCase` inserts rows with `resolved` unset (open) and
`run.py`'s `SQLiteAlertRepo.resolve_open_by_type` closes them.  The
human-readable `description` column is presentation-only (string formatting
of the numeric fields) and is not embedded. -/

structure AlertRow where
  tank_id : ℤ
  alert_type : String
  severity : Severity
  value : ℚ
  threshold : ℚ
  created_at : ℕ
  resolved : Bool := false
  resolved_at : Option ℕ := none
deriving DecidableEq, Repr

/-- `last_for_tank` of the sensor repositories: the most recent stored reading
for a tank.  Readings are stored in insertion order, so the latest is the
last matching element. -/
def last_for_tank (readings : List SensorReading) (tid : ℤ) : Option SensorReading :=
  (readings.filter (fun r => r.tank_id = tid)).getLast?

/-! ## MonitorSensorsUseCase (src/domain/use_cases/monitor_sensors_use_case.py) -/

/-- `MonitorSensorsUseCase._sev_map`, as a lookup keyed by the four metric
names used in the dict. -/
def sev_map (r : SensorReading) (key : String) : Severity :=
  if key = "temperature" then status_temperatura r
  else if key = "ph" then status_ph r
  else if key = "oxygen" then status_oxigenio r
  else status_turbidez r

/-- One entry of `MonitorSensorsUseCase._checks`.  `hi = none` encodes
`float('inf')` (used for oxygen, which has no upper operational bound). -/
structure Check where
  key : String
  value : ℚ
  lo : ℚ
  hi : Option ℚ

/-- `MonitorSensorsUseCase._checks`. -/
def checks (r : SensorReading) : List Check :=
  [ ⟨"temperature", r.temperatura, temp_min, some temp_max⟩,
    ⟨"ph", r.ph, ph_min, some ph_max⟩,
    ⟨"oxygen", r.oxigenio, oxygen_min, none⟩,
    ⟨"turbidity", r.turbidez, 0, some turbidez_max⟩ ]

/-- `MonitorSensorsUseCase._threshold_for`. -/
def threshold_for (key : String) (value lo : ℚ) (hi : Option ℚ) : ℚ :=
  if key = "oxygen" then oxygen_min
  else if key = "turbidity" then turbidez_max
  else match hi with
       | some h => if value > h then h else lo
       | none => lo

/-- State available to `MonitorSensorsUseCase.execute` through the injected
repositories: stored readings and stored alert rows. -/
structure MonitorState where
  readings : List SensorReading
  alerts : List AlertRow
deriving DecidableEq, Repr

/-- The severity used for comparison in `execute`: that of the previous
reading, or NORMAL when there is no history. -/
def prev_sev_of (prev : Option SensorReading) (key : String) : Severity :=
  match prev with
  | some p => sev_map p key
  | none => Severity.NORMAL

/-- The per-check body of the alert loop in `MonitorSensorsUseCase.execute`:
skip if the current severity is NORMAL, emit an alert if the severity differs
from the previous one, otherwise do nothing. -/
def alert_for_check (prev : Option SensorReading) (reading : SensorReading)
    (ts : ℕ) (c : Check) : Option AlertRow :=
  let cur := sev_map reading c.key
  let prv := prev_sev_of prev c.key
  if cur = Severity.NORMAL then none
  else if prv ≠ cur then
    some { tank_id := reading.tank_id, alert_type := c.key, severity := cur,
           value := c.value, threshold := threshold_for c.key c.value c.lo c.hi,
           created_at := ts }
  else none

/-- `MonitorSensorsUseCase.execute`: read the previous reading for the tank,
persist the current reading, and for each metric emit (and persist) an alert
exactly when the severity changed to a non-NORMAL value.  Returns the updated
repository state together with the list of alerts generated by this call. -/
def execute (st : MonitorState) (reading : SensorReading) (ts : ℕ) :
    MonitorState × List AlertRow :=
  let prev := last_for_tank st.readings reading.tank_id
  let readings := st.readings ++ [reading]
  let newAlerts := (checks reading).filterMap (alert_for_check prev reading ts)
  (⟨readings, st.alerts ++ newAlerts⟩, newAlerts)

/-- The previous severity used by `execute` for a metric: the severity of the
last stored reading for the tank, or NORMAL when there is none. -/
def prev_severity (st : MonitorState) (reading : SensorReading) (key : String) : Severity :=
  prev_sev_of (last_for_tank st.readings reading.tank_id) key

/-- Every alert emitted by `alert_for_check` carries the metric key of the
check that produced it. -/
theorem alert_for_check_key (prev : Option SensorReading) (reading : SensorReading)
    (ts : ℕ) (c : Check) (a : AlertRow) (h : alert_for_check prev reading ts c = some a) :
    a.alert_type = c.key := by
  simp only [alert_for_check] at h
  split_ifs at h with h1 h2
  cases Option.some.inj h
  rfl

/-- `alert_for_check` emits an alert exactly when the current severity is
non-NORMAL and differs from the previous one. -/
theorem alert_for_check_isSome (prev : Option SensorReading) (reading : SensorReading)
    (ts : ℕ) (c : Check) :
    (alert_for_check prev reading ts c).isSome = true ↔
      (sev_map reading c.key ≠ .NORMAL ∧ prev_sev_of prev c.key ≠ sev_map reading c.key) := by
  simp only [alert_for_check]
  split_ifs with h1 h2 <;> simp_all

/-- Membership in the alerts generated by one `execute` call. -/
theorem mem_execute_alerts (st : MonitorState) (reading : SensorReading) (ts : ℕ)
    (a : AlertRow) :
    a ∈ (execute st reading ts).2 ↔
      ∃ c ∈ checks reading,
        alert_for_check (last_for_tank st.readings reading.tank_id) reading ts c = some a := by
  simp [execute, List.mem_filterMap]

/-- C4: in `MonitorSensorsUseCase.execute`, for each of the four metrics an
alert is created (and persisted: the alert store grows by exactly the created
alerts) if and only if the metric's current severity is non-NORMAL and differs
from the previous stored reading's severity for that metric, absence of a
previous reading counting as NORMAL.  In particular an unchanged non-NORMAL
severity creates no alert. -/
theorem alert_iff_severity_transition (st : MonitorState) (reading : SensorReading)
    (ts : ℕ) (key : String)
    (hkey : key = "temperature" ∨ key = "ph" ∨ key = "oxygen" ∨ key = "turbidity") :
    ((∃ a ∈ (execute st reading ts).2, a.alert_type = key) ↔
      (sev_map reading key ≠ .NORMAL ∧ prev_severity st reading key ≠ sev_map reading key)) ∧
    (execute st reading ts).1.alerts = st.alerts ++ (execute st reading ts).2 := by
  constructor
  · set prev := last_for_tank st.readings reading.tank_id with hprev
    have hchar : ∀ a, a ∈ (execute st reading ts).2 ↔
        ∃ c ∈ checks reading, alert_for_check prev reading ts c = some a :=
      fun a => mem_execute_alerts st reading ts a
    constructor
    · rintro ⟨a, ha, hkeya⟩
      obtain ⟨c, hc, hsome⟩ := (hchar a).1 ha
      have hck : a.alert_type = c.key := alert_for_check_key prev reading ts c a hsome
      have hckey : c.key = key := by rw [← hck, hkeya]
      have hs : (alert_for_check prev reading ts c).isSome = true := by
        rw [hsome]; rfl
      have := (alert_for_check_isSome prev reading ts c).1 hs
      rw [hckey] at this
      exact ⟨this.1, by rw [prev_severity, ← hprev]; exact this.2⟩
    · rintro ⟨hcur, hprv⟩
      have hprv' : prev_sev_of prev key ≠ sev_map reading key := by
        rw [prev_severity, ← hprev] at hprv; exact hprv
      -- pick the check whose key is `key`
      have : ∃ c ∈ checks reading, c.key = key := by
        rcases hkey with h | h | h | h <;> subst h <;> simp [checks]
      obtain ⟨c, hc, hckey⟩ := this
      have hs : (alert_for_check prev reading ts c).isSome = true :=
        (alert_for_check_isSome prev reading ts c).2 (by rw [hckey]; exact ⟨hcur, hprv'⟩)
      obtain ⟨a, ha⟩ := Option.isSome_iff_exists.1 hs
      refine ⟨a, (hchar a).2 ⟨c, hc, ha⟩, ?_⟩
      rw [alert_for_check_key prev reading ts c a ha, hckey]
  · rfl

/-- Witness for `alert_iff_severity_transition`: a first reading with low
oxygen (previous severity NORMAL by absence of history) creates an oxygen
alert. -/
theorem alert_iff_severity_transition_witness :
    (∃ a ∈ (execute ⟨[], []⟩ ⟨1, 26, 7, 60, 10, 0⟩ 5).2, a.alert_type = "oxygen") ↔
      (sev_map ⟨1, 26, 7, 60, 10, 0⟩ "oxygen" ≠ .NORMAL ∧
        prev_severity ⟨[], []⟩ ⟨1, 26, 7, 60, 10, 0⟩ "oxygen" ≠
          sev_map ⟨1, 26, 7, 60, 10, 0⟩ "oxygen") :=
  (alert_iff_severity_transition ⟨[], []⟩ ⟨1, 26, 7, 60, 10, 0⟩ 5 "oxygen"
    (by simp)).1

/-! ## Alert resolution (run.py)

`MonitorSensorsUseCase.execute` never resolves alerts: its NORMAL branch is a
`continue` (the source comments mark recovery as future work).  Resolution
lives in run.py: the AUTO-RESOLVE block at the end of `simulate_and_process`
and the reconciliation sweep `auto_resolve_sweep`, both of which call
`SQLiteAlertRepo.resolve_open_by_type`. -/

/-- The per-row effect of `SQLiteAlertRepo.resolve_open_by_type`'s SQL
UPDATE: an open alert of the given tank and type becomes resolved with
`resolved_at` set; every other row is untouched. -/
def resolve_row (tid : ℤ) (atype : String) (t : ℕ) (a : AlertRow) : AlertRow :=
  if a.tank_id = tid ∧ a.alert_type = atype ∧ a.resolved = false then
    { a with resolved := true, resolved_at := some t }
  else a

/-- `SQLiteAlertRepo.resolve_open_by_type` (run.py): applies the UPDATE to
every row of the alerts table. -/
def resolve_open_by_type (alerts : List AlertRow) (tid : ℤ) (atype : String)
    (t : ℕ) : List AlertRow :=
  alerts.map (resolve_row tid atype t)

/-- The per-tank body of run.py's `auto_resolve_sweep` (the same four
conditional `resolve_open_by_type` calls form the AUTO-RESOLVE block at the
end of `simulate_and_process`). -/
def sweep_tank (alerts : List AlertRow) (tid : ℤ) (last : Option SensorReading)
    (now : ℕ) : List AlertRow :=
  match last with
  | none => alerts
  | some r =>
    let a1 := if status_temperatura r = .NORMAL then
                resolve_open_by_type alerts tid "temperature" now else alerts
    let a2 := if status_ph r = .NORMAL then
                resolve_open_by_type a1 tid "ph" now else a1
    let a3 := if status_oxigenio r = .NORMAL then
                resolve_open_by_type a2 tid "oxygen" now else a2
    if status_turbidez r = .NORMAL then
      resolve_open_by_type a3 tid "turbidity" now else a3

/-- run.py `auto_resolve_sweep`: for every tank, re-evaluate its latest
reading and resolve the open alerts of every metric that is NORMAL. -/
def auto_resolve_sweep (tanks : List ℤ) (readings : List SensorReading)
    (alerts : List AlertRow) (now : ℕ) : List AlertRow :=
  tanks.foldl (fun acc tid => sweep_tank acc tid (last_for_tank readings tid) now) alerts

/-- The action of one tank's sweep on a single alert row. -/
def sweep_row (tid : ℤ) (last : Option SensorReading) (now : ℕ) (a : AlertRow) : AlertRow :=
  match last with
  | none => a
  | some r =>
    let a1 := if status_temperatura r = .NORMAL then resolve_row tid "temperature" now a else a
    let a2 := if status_ph r = .NORMAL then resolve_row tid "ph" now a1 else a1
    let a3 := if status_oxigenio r = .NORMAL then resolve_row tid "oxygen" now a2 else a2
    if status_turbidez r = .NORMAL then resolve_row tid "turbidity" now a3 else a3

theorem cond_resolve_eq_map (l : List AlertRow) (c : Prop) [Decidable c]
    (tid : ℤ) (ty : String) (n : ℕ) :
    (if c then resolve_open_by_type l tid ty n else l) =
      l.map (fun a => if c then resolve_row tid ty n a else a) := by
  by_cases hc : c
  · simp [resolve_open_by_type, hc]
  · simp [hc]

theorem sweep_tank_eq_map (alerts : List AlertRow) (tid : ℤ)
    (last : Option SensorReading) (now : ℕ) :
    sweep_tank alerts tid last now = alerts.map (sweep_row tid last now) := by
  cases last with
  | none =>
    have h0 : sweep_row tid none now = fun a => a := rfl
    simp [sweep_tank, h0]
  | some r =>
    simp only [sweep_tank]
    rw [cond_resolve_eq_map, cond_resolve_eq_map, cond_resolve_eq_map, cond_resolve_eq_map,
        List.map_map, List.map_map, List.map_map]
    rfl

theorem auto_resolve_sweep_eq_map (tanks : List ℤ) (readings : List SensorReading)
    (alerts : List AlertRow) (now : ℕ) :
    auto_resolve_sweep tanks readings alerts now =
      alerts.map (fun a =>
        tanks.foldl (fun a tid => sweep_row tid (last_for_tank readings tid) now a) a) := by
  induction tanks generalizing alerts with
  | nil => simp [auto_resolve_sweep]
  | cons t ts ih =>
    simp only [auto_resolve_sweep, List.foldl_cons] at *
    rw [sweep_tank_eq_map, ih, List.map_map]
    rfl

theorem resolve_row_of_resolved (tid : ℤ) (atype : String) (t : ℕ) (a : AlertRow)
    (h : a.resolved = true) : resolve_row tid atype t a = a := by
  simp [resolve_row, h]

theorem sweep_row_of_resolved (tid : ℤ) (last : Option SensorReading) (now : ℕ)
    (a : AlertRow) (h : a.resolved = true) : sweep_row tid last now a = a := by
  cases last with
  | none => rfl
  | some r =>
    have hr : ∀ ty, resolve_row tid ty now a = a :=
      fun ty => resolve_row_of_resolved tid ty now a h
    simp only [sweep_row]
    split_ifs <;> simp only [hr]

theorem resolve_row_of_other (tid : ℤ) (atype : String) (t : ℕ) (a : AlertRow)
    (h : ¬(a.tank_id = tid ∧ a.alert_type = atype ∧ a.resolved = false)) :
    resolve_row tid atype t a = a := by
  rw [resolve_row, if_neg h]

theorem sweep_row_of_other_tank (tid : ℤ) (last : Option SensorReading) (now : ℕ)
    (a : AlertRow) (h : a.tank_id ≠ tid) : sweep_row tid last now a = a := by
  cases last with
  | none => rfl
  | some r =>
    have hr : ∀ ty, resolve_row tid ty now a = a :=
      fun ty => resolve_row_of_other tid ty now a (fun hc => h hc.1)
    simp only [sweep_row]
    split_ifs <;> simp only [hr]

theorem resolve_row_of_type_ne (tid : ℤ) (atype : String) (t : ℕ) (a : AlertRow)
    (h : a.alert_type ≠ atype) : resolve_row tid atype t a = a :=
  resolve_row_of_other tid atype t a (fun hc => h hc.2.1)

theorem sev_map_temperature (r : SensorReading) :
    sev_map r "temperature" = status_temperatura r := by
  rw [sev_map, if_pos rfl]

theorem sev_map_ph (r : SensorReading) : sev_map r "ph" = status_ph r := by
  rw [sev_map, if_neg (by decide), if_pos rfl]

theorem sev_map_oxygen (r : SensorReading) : sev_map r "oxygen" = status_oxigenio r := by
  rw [sev_map, if_neg (by decide), if_neg (by decide), if_pos rfl]

theorem sev_map_turbidity (r : SensorReading) : sev_map r "turbidity" = status_turbidez r := by
  rw [sev_map, if_neg (by decide), if_neg (by decide), if_neg (by decide)]

/-- A matching open alert whose metric is NORMAL on the tank's latest reading
is resolved (with timestamp) by that tank's sweep. -/
theorem sweep_row_hit (tid : ℤ) (r : SensorReading) (now : ℕ) (a : AlertRow)
    (hkey : a.alert_type = "temperature" ∨ a.alert_type = "ph" ∨
            a.alert_type = "oxygen" ∨ a.alert_type = "turbidity")
    (htank : a.tank_id = tid) (hopen : a.resolved = false)
    (hsev : sev_map r a.alert_type = .NORMAL) :
    sweep_row tid (some r) now a = { a with resolved := true, resolved_at := some now } := by
  have hres : ∀ ty, a.alert_type = ty →
      resolve_row tid ty now a = { a with resolved := true, resolved_at := some now } := by
    intro ty hty
    rw [resolve_row, if_pos ⟨htank, hty, hopen⟩]
  have hafter : ∀ ty, resolve_row tid ty now
      ({ a with resolved := true, resolved_at := some now }) =
      { a with resolved := true, resolved_at := some now } :=
    fun ty => resolve_row_of_resolved tid ty now _ rfl
  rcases hkey with hk | hk | hk | hk
  · rw [hk, sev_map_temperature] at hsev
    simp only [sweep_row, hsev, eq_self_iff_true, if_true, hres _ hk, hafter, ite_self]
  · rw [hk, sev_map_ph] at hsev
    have h1 : resolve_row tid "temperature" now a = a :=
      resolve_row_of_type_ne _ _ _ _ (by rw [hk]; decide)
    simp only [sweep_row, h1, ite_self, hsev, eq_self_iff_true, if_true,
      hres _ hk, hafter]
  · rw [hk, sev_map_oxygen] at hsev
    have h1 : resolve_row tid "temperature" now a = a :=
      resolve_row_of_type_ne _ _ _ _ (by rw [hk]; decide)
    have h2 : resolve_row tid "ph" now a = a :=
      resolve_row_of_type_ne _ _ _ _ (by rw [hk]; decide)
    simp only [sweep_row, h1, h2, ite_self, hsev, eq_self_iff_true, if_true,
      hres _ hk, hafter]
  · rw [hk, sev_map_turbidity] at hsev
    have h1 : resolve_row tid "temperature" now a = a :=
      resolve_row_of_type_ne _ _ _ _ (by rw [hk]; decide)
    have h2 : resolve_row tid "ph" now a = a :=
      resolve_row_of_type_ne _ _ _ _ (by rw [hk]; decide)
    have h3 : resolve_row tid "oxygen" now a = a :=
      resolve_row_of_type_ne _ _ _ _ (by rw [hk]; decide)
    simp only [sweep_row, h1, h2, h3, ite_self, hsev, eq_self_iff_true, if_true,
      hres _ hk]

/-- A resolved alert row is never touched again by later tanks' sweeps. -/
theorem row_fold_of_resolved (tanks : List ℤ) (readings : List SensorReading)
    (now : ℕ) (a : AlertRow) (h : a.resolved = true) :
    tanks.foldl (fun a t => sweep_row t (last_for_tank readings t) now a) a = a := by
  induction tanks with
  | nil => rfl
  | cons t ts ih => simp only [List.foldl_cons, sweep_row_of_resolved _ _ _ _ h, ih]

/-- Effect of the whole sweep on one matching open alert row. -/
theorem row_fold_resolves (tanks : List ℤ) (readings : List SensorReading)
    (now : ℕ) (tid : ℤ) (r : SensorReading) (a : AlertRow)
    (htid : tid ∈ tanks) (hlast : last_for_tank readings tid = some r)
    (hkey : a.alert_type = "temperature" ∨ a.alert_type = "ph" ∨
            a.alert_type = "oxygen" ∨ a.alert_type = "turbidity")
    (htank : a.tank_id = tid) (hopen : a.resolved = false)
    (hsev : sev_map r a.alert_type = .NORMAL) :
    tanks.foldl (fun a t => sweep_row t (last_for_tank readings t) now a) a =
      { a with resolved := true, resolved_at := some now } := by
  induction tanks with
  | nil => cases htid
  | cons t ts ih =>
    simp only [List.foldl_cons]
    by_cases ht : t = tid
    · subst ht
      rw [hlast, sweep_row_hit t r now a hkey htank hopen hsev]
      exact row_fold_of_resolved ts readings now _ rfl
    · have hts : tid ∈ ts := by
        rcases List.mem_cons.1 htid with he | hts
        · exact absurd he.symm ht
        · exact hts
      rw [sweep_row_of_other_tank t _ now a (fun hc => ht (htank.symm.trans hc).symm)]
      exact ih hts

/-- C5 counterexample: `MonitorSensorsUseCase.execute` itself performs no
resolution.  A store holding one open temperature alert, processed with a
reading whose every metric is NORMAL, still holds the same open alert
afterwards (no `resolved_at` is set), refuting the claim that the use case
resolves open alerts when a metric's severity is NORMAL. -/
theorem execute_does_not_resolve_on_normal :
    (execute ⟨[], [⟨1, "temperature", .WARNING, 30, 28, 0, false, none⟩]⟩
        ⟨1, 26, 7, 80, 10, 1⟩ 2).1.alerts =
      [⟨1, "temperature", .WARNING, 30, 28, 0, false, none⟩] ∧
    (⟨1, "temperature", .WARNING, 30, 28, 0, false, none⟩ : AlertRow).resolved = false ∧
    (⟨1, "temperature", .WARNING, 30, 28, 0, false, none⟩ : AlertRow).resolved_at = none := by
  refine ⟨?_, rfl, rfl⟩
  norm_num [execute, checks, alert_for_check, last_for_tank, prev_sev_of, sev_map,
    status_temperatura, status_ph, status_oxigenio, status_turbidez,
    temp_min, temp_max, ph_min, ph_max, oxygen_min, turbidez_max]

/-- C5 (amended): resolution happens outside the use case.  run.py's
`auto_resolve_sweep` (and the identical AUTO-RESOLVE block of
`simulate_and_process`, which is `sweep_tank` for a single tank)
re-evaluates each tank's latest reading and, for every metric whose severity
is NORMAL, marks every open alert of that (tank, metric) as resolved with the
resolution timestamp set. -/
theorem sweep_resolves_returned_to_normal (tanks : List ℤ)
    (readings : List SensorReading) (alerts : List AlertRow) (now : ℕ)
    (tid : ℤ) (r : SensorReading) (a : AlertRow)
    (htid : tid ∈ tanks) (hlast : last_for_tank readings tid = some r)
    (hkey : a.alert_type = "temperature" ∨ a.alert_type = "ph" ∨
            a.alert_type = "oxygen" ∨ a.alert_type = "turbidity")
    (htank : a.tank_id = tid) (hopen : a.resolved = false)
    (hsev : sev_map r a.alert_type = .NORMAL) (hmem : a ∈ alerts) :
    { a with resolved := true, resolved_at := some now } ∈
      auto_resolve_sweep tanks readings alerts now := by
  rw [auto_resolve_sweep_eq_map]
  refine List.mem_map.2 ⟨a, hmem, ?_⟩
  exact row_fold_resolves tanks readings now tid r a htid hlast hkey htank hopen hsev

/-- Witness for `sweep_resolves_returned_to_normal`: a sweep over one tank
whose latest reading is fully NORMAL resolves its open temperature alert. -/
theorem sweep_resolves_returned_to_normal_witness :
    ({ tank_id := 1, alert_type := "temperature", severity := .WARNING, value := 30,
       threshold := 28, created_at := 0, resolved := true, resolved_at := some 9 } : AlertRow) ∈
      auto_resolve_sweep [1] [⟨1, 26, 7, 80, 10, 1⟩]
        [⟨1, "temperature", .WARNING, 30, 28, 0, false, none⟩] 9 :=
  sweep_resolves_returned_to_normal [1] [⟨1, 26, 7, 80, 10, 1⟩]
    [⟨1, "temperature", .WARNING, 30, 28, 0, false, none⟩] 9 1 ⟨1, 26, 7, 80, 10, 1⟩
    ⟨1, "temperature", .WARNING, 30, 28, 0, false, none⟩
    (by decide) (by decide) (Or.inl rfl) rfl rfl (by decide) (by decide)

/-! ## Sensor simulator (src/infrastructure/sensors/sensor_simulator.py)

The simulator's randomness (`random.random`, `random.uniform`,
`random.randint`, `random.choice`, `random.gauss`) is modelled by an
explicit draw stream `ds : ℕ → ℚ` and a cursor `n` advanced by one for each
primitive call; each primitive is an arbitrary deterministic function of its
raw draw, which is sufficient because every verified property below holds
for arbitrary draw values.  `math.sin` and `math.pi` are the parameters
`rsin` and `rpi`. -/

/-- `clamp` (sensor_simulator.py line 89). -/
def clamp (v lo hi : ℚ) : ℚ := max lo (min hi v)

/-- Python's `round` (banker's rounding, ties to even). -/
def pyround (x : ℚ) : ℤ :=
  let f := ⌊x⌋
  let r := x - f
  if r < 1/2 then f
  else if r > 1/2 then f + 1
  else if f % 2 = 0 then f else f + 1

/-- `random.uniform(a, b)` = `a + (b-a)*random()` applied to one raw draw. -/
def uniform (d a b : ℚ) : ℚ := a + (b - a) * d

/-- `random.randint(a, b)`: some integer in `[a, b]`, as a deterministic
function of one raw draw. -/
def randint (d : ℚ) (a b : ℤ) : ℤ := a + (Int.natAbs ⌊d⌋ : ℤ) % (b - a + 1)

/-- `PROBLEM_PROBABILITY` (module default; `main` may override it, the core
uses the default). -/
def PROBLEM_PROBABILITY : ℚ := 0.10
/-- `INTERVAL` seconds between readings (module default). -/
def INTERVAL : ℚ := 30
/-- `FEED_TIMES_MIN`. -/
def FEED_TIMES_MIN : List ℤ := [8*60, 12*60, 18*60]
/-- `FEED_EVENT_MIN`. -/
def FEED_EVENT_MIN : ℚ := 45
/-- `AERATOR_FAIL_CHANCE_PER_HOUR`. -/
def AERATOR_FAIL_CHANCE_PER_HOUR : ℚ := 0.08
/-- `WATER_RENEW_CHANCE_PER_DAY`. -/
def WATER_RENEW_CHANCE_PER_DAY : ℚ := 0.20

/-- One entry of `TANK_PROFILES`. -/
structure TankProfile where
  temperature_base : ℚ
  temp_var : ℚ
  ph_base : ℚ
  ph_var : ℚ
  oxygen_base : ℚ
  oxy_var : ℚ
  turbidity_base : ℚ
  turb_var : ℚ
deriving DecidableEq, Repr

/-- `_ensure_profile`: the configured profiles for tanks 1..4, and the
deterministic offset-derived profile for any other id. -/
def _ensure_profile (tid : ℤ) : TankProfile :=
  if tid = 1 then ⟨26.0, 2.0, 7.2, 0.35, 86.0, 10.0, 22.0, 6.0⟩
  else if tid = 2 then ⟨27.0, 2.3, 7.0, 0.30, 88.0, 9.0, 20.0, 5.0⟩
  else if tid = 3 then ⟨25.5, 1.8, 7.3, 0.40, 83.0, 11.0, 26.0, 7.0⟩
  else if tid = 4 then ⟨26.5, 2.6, 6.9, 0.45, 85.0, 12.0, 24.0, 6.0⟩
  else
    let offs : ℚ := ((tid % 4 : ℤ) : ℚ) * 0.3
    ⟨26.0 + offs, 2.0 + offs/2, 7.1 + offs/10, 0.35,
     85.0 - offs, 10.0 + offs, 22.0 + offs, 6.0⟩

/-- The per-tank `STATE` dict entry. -/
structure SimState where
  temperature : ℚ
  ph : ℚ
  oxygen : ℚ
  turbidity : ℚ
  tick : ℕ
  bio_load : ℚ
  last_day_idx : ℤ
deriving DecidableEq, Repr

/-- The `Event` dataclass. -/
structure Event where
  name : String
  remaining_ticks : ℤ
  strength : ℚ := 1.0
deriving DecidableEq, Repr

/-- `_ensure_state`: the fresh state created for an unseen tank. -/
def _ensure_state (tid : ℤ) : SimState :=
  let prof := _ensure_profile tid
  { temperature := prof.temperature_base, ph := prof.ph_base,
    oxygen := prof.oxygen_base, turbidity := prof.turbidity_base,
    tick := 0, bio_load := 0.10, last_day_idx := -1 }

/-- The mutable simulator context for one tank (`STATE[tid]`,
`ACTIVE_EVENTS[tid]`, and the PRNG cursor). -/
structure SimCtx where
  st : SimState
  evs : List Event
  n : ℕ
deriving DecidableEq, Repr

/-- `_ticks_for_minutes`. -/
def _ticks_for_minutes (minutes : ℚ) : ℤ :=
  let tick_minutes := (max 1 INTERVAL) / 60
  max 1 (pyround (minutes / tick_minutes))

/-- `_diurnal`: `sin(2π·((min_of_day − peak_min) mod 1440)/1440)`. -/
def _diurnal (rsin : ℚ → ℚ) (rpi : ℚ) (min_of_day peak_min : ℤ) : ℚ :=
  rsin (2 * rpi * (((min_of_day - peak_min) % 1440 : ℤ) : ℚ) / 1440)

/-- `_decay_events`: decrement every event's remaining ticks, drop expired. -/
def _decay_events (evs : List Event) : List Event :=
  (evs.map (fun e => { e with remaining_ticks := e.remaining_ticks - 1 })).filter
    (fun e => e.remaining_ticks > 0)

/-- `_maybe_start_event_daily`: once per new calendar day, draw a
water-renewal event with `WATER_RENEW_CHANCE_PER_DAY`; duration
`randint(15, 30)` minutes, strength `uniform(0.5, 1.0)`. -/
def _maybe_start_event_daily (ds : ℕ → ℚ) (n : ℕ) (st : SimState)
    (evs : List Event) (day_idx : ℤ) : SimState × List Event × ℕ :=
  if st.last_day_idx ≠ day_idx then
    let st := { st with last_day_idx := day_idx }
    if ds n < WATER_RENEW_CHANCE_PER_DAY then
      let dur := randint (ds (n+1)) 15 30
      (st, evs ++ [⟨"water_renewal", _ticks_for_minutes (dur : ℚ),
                    uniform (ds (n+2)) 0.5 1.0⟩], n+3)
    else (st, evs, n+2)
  else (st, evs, n)

/-- The feeding-window loop of `_maybe_start_event_per_tick`: for each
configured feed time, if the current minute is within ±5 minutes and no
feeding event is active, start one. -/
def startFeedingFold (mod : ℤ) (times : List ℤ) (evs : List Event) : List Event :=
  times.foldl (fun evs feed_min =>
    if |mod - feed_min| ≤ 5 then
      if ¬ evs.any (fun e => e.name = "feeding") then
        evs ++ [⟨"feeding", _ticks_for_minutes FEED_EVENT_MIN, 1.0⟩]
      else evs
    else evs) evs

/-- `_maybe_start_event_per_tick`: feeding windows, then the per-tick
aerator-failure draw (per-hour chance scaled by the tick interval). -/
def _maybe_start_event_per_tick (ds : ℕ → ℚ) (n : ℕ) (mod : ℤ)
    (evs : List Event) : List Event × ℕ :=
  let evs := startFeedingFold mod FEED_TIMES_MIN evs
  let chance_tick := AERATOR_FAIL_CHANCE_PER_HOUR * (INTERVAL / 3600)
  if ds n < chance_tick then
    (evs ++ [⟨"aerator_failure", _ticks_for_minutes ((randint (ds (n+1)) 10 40 : ℤ) : ℚ),
              uniform (ds (n+2)) 0.6 1.0⟩], n+3)
  else (evs, n+2)

/-- The four smoothed metric values being assembled by `generate_reading`. -/
structure Values where
  temperature : ℚ
  ph : ℚ
  oxygen : ℚ
  turbidity : ℚ
deriving DecidableEq, Repr

/-- The per-event body of `_apply_events_effects`, with its per-event decay
`max(0.15, t/(t+4))` and the extra uniform noise draws. -/
def _apply_one_event (ds : ℕ → ℚ) (ev : Event) (v : Values) (n : ℕ) : Values × ℕ :=
  let t := ev.remaining_ticks
  let decay := max 0.15 ((t : ℚ) / max 1 ((t : ℚ) + 4))
  let s := ev.strength * decay
  if ev.name = "feeding" then
    ({ v with turbidity := v.turbidity + 12.0 * s + uniform (ds n) 0 4.0,
              oxygen := v.oxygen - (3.0 * s + uniform (ds (n+1)) 0 1.0),
              ph := v.ph - 0.03 * s }, n + 2)
  else if ev.name = "aerator_failure" then
    ({ v with oxygen := v.oxygen - (25.0 * s + uniform (ds n) 3 7),
              turbidity := v.turbidity + 3.0 * s + uniform (ds (n+1)) 0 2.0 }, n + 2)
  else if ev.name = "water_renewal" then
    ({ v with turbidity := v.turbidity - 10.0 * s,
              temperature := v.temperature - 0.4 * s,
              ph := v.ph - 0.02 * s }, n)
  else (v, n)

/-- `_apply_events_effects`. -/
def _apply_events_effects (ds : ℕ → ℚ) (evs : List Event) (v : Values) (n : ℕ) :
    Values × ℕ :=
  evs.foldl (fun p ev => _apply_one_event ds ev p.1 p.2) (v, n)

/-- `_update_bio_load`: decrease while a water renewal is active (floored at
0), otherwise accumulate (capped at 2). -/
def _update_bio_load (st : SimState) (evs : List Event) : SimState :=
  if evs.any (fun e => e.name = "water_renewal") then
    { st with bio_load := max 0 (st.bio_load - 0.015) }
  else
    { st with bio_load := min 2.0 (st.bio_load + 0.004 * (INTERVAL / 3600)) }

/-- `_sensor_spike`: one discontinuous spike on a randomly chosen metric. -/
def _sensor_spike (ds : ℕ → ℚ) (n : ℕ) (v : Values) : Values × ℕ :=
  let problem := (Int.natAbs ⌊ds n⌋) % 4
  if problem = 0 then
    ({ v with temperature := v.temperature + (if ds (n+1) < 1/2 then -4.0 else 4.0) }, n+2)
  else if problem = 1 then
    ({ v with ph := v.ph + (if ds (n+1) < 1/2 then -1.2 else 1.2) }, n+2)
  else if problem = 2 then
    ({ v with oxygen := v.oxygen - uniform (ds (n+1)) 15.0 35.0 }, n+2)
  else
    ({ v with turbidity := v.turbidity + uniform (ds (n+1)) 45.0 90.0 }, n+2)

/-- Step 8 of `generate_reading`: clamp every metric to its hard bound
(the code clamps pH to the tighter `[4, 10]`). -/
def clampValues (v : Values) : Values :=
  { temperature := clamp v.temperature 0.0 50.0,
    ph := clamp v.ph 4.0 10.0,
    oxygen := clamp v.oxygen 0.0 100.0,
    turbidity := clamp v.turbidity 0.0 200.0 }

/-- `generate_reading`: decay/start events, update bio-load, compute diurnal
targets, ease toward them with noise, apply event effects, cross-metric
coupling, an occasional spike, clamp, and persist the state.  `now_mod` and
`day_idx` stand for the wall-clock values derived from `datetime.now()`. -/
def generate_reading (rsin : ℚ → ℚ) (rpi : ℚ) (ds : ℕ → ℚ) (tid : ℤ)
    (minute_of_day_value : ℤ) (now_mod day_idx : ℤ) (ctx : SimCtx) :
    Values × SimCtx :=
  let prof := _ensure_profile tid
  let st := ctx.st
  -- 1) decay events and maybe start new ones; update bio load
  let evs := _decay_events ctx.evs
  let p1 := _maybe_start_event_daily ds ctx.n st evs day_idx
  let st := p1.1
  let p2 := _maybe_start_event_per_tick ds p1.2.2 now_mod p1.2.1
  let evs := p2.1
  let st := _update_bio_load st evs
  let n := p2.2
  -- 2) diurnal targets
  let cyc_temp := _diurnal rsin rpi minute_of_day_value (15*60)
  let cyc_o2 := _diurnal rsin rpi minute_of_day_value (16*60)
  let cyc_ph := _diurnal rsin rpi minute_of_day_value (15*60)
  let temp_target := prof.temperature_base + prof.temp_var * 0.7 * cyc_temp
  let o2_target := prof.oxygen_base + prof.oxy_var * 0.7 * cyc_o2
  let ph_target := prof.ph_base + prof.ph_var * 0.8 * cyc_ph
  let turb_target := prof.turbidity_base +
    prof.turb_var * 0.5 * rsin (2 * rpi * (minute_of_day_value : ℚ) / 1440)
  -- 3) bio-load shifts
  let bio := st.bio_load
  let turb_target := turb_target + 8.0 * bio
  let o2_target := o2_target - 3.0 * bio
  let ph_target := ph_target - 0.06 * bio
  -- 4) ease toward targets (`approach`), one noise draw per metric
  let v : Values :=
    { temperature := st.temperature + 0.12 * (temp_target - st.temperature) +
        uniform (ds n) (-0.15) 0.15,
      ph := st.ph + 0.10 * (ph_target - st.ph) + uniform (ds (n+1)) (-0.03) 0.03,
      oxygen := st.oxygen + 0.15 * (o2_target - st.oxygen) + uniform (ds (n+2)) (-1.2) 1.2,
      turbidity := st.turbidity + 0.18 * (turb_target - st.turbidity) +
        uniform (ds (n+3)) (-1.0) 1.0 }
  let n := n + 4
  -- 5) event effects
  let p3 := _apply_events_effects ds evs v n
  let v := p3.1
  let n := p3.2
  -- 6) weak cross-metric couplings
  let v := { v with oxygen := v.oxygen - 0.35 * (v.temperature - prof.temperature_base) }
  let v := { v with turbidity := v.turbidity - 0.6 * (v.ph - prof.ph_base) }
  -- 7) occasional sensor spike
  let p4 := if ds n < PROBLEM_PROBABILITY * 0.05
            then _sensor_spike ds (n+1) v else (v, n+1)
  let v := p4.1
  let n := p4.2
  -- 8) hard physical bounds
  let v := clampValues v
  -- 9) persist the state for the next tick
  let st := { st with temperature := v.temperature, ph := v.ph, oxygen := v.oxygen,
                      turbidity := v.turbidity, tick := st.tick + 1 }
  (v, ⟨st, evs, n⟩)

theorem clamp_bounds (x lo hi : ℚ) (h : lo ≤ hi) :
    lo ≤ clamp x lo hi ∧ clamp x lo hi ≤ hi := by
  unfold clamp
  constructor
  · exact le_max_left _ _
  · exact max_le h (min_le_left _ _)

/-- `generate_reading` always ends by clamping the assembled values. -/
theorem generate_reading_fst_eq_clamp (rsin : ℚ → ℚ) (rpi : ℚ) (ds : ℕ → ℚ)
    (tid minute_of_day_value now_mod day_idx : ℤ) (ctx : SimCtx) :
    ∃ v, (generate_reading rsin rpi ds tid minute_of_day_value now_mod day_idx ctx).1 =
      clampValues v :=
  ⟨_, rfl⟩

/-- C1: whatever the tank id, the minute of day, the accumulated state
(events, bio-load) and the injected random draws (noise, events, spikes),
the reading produced by `generate_reading` is within the hard physical
bounds: temperature in [0, 50], pH in [0, 14] (the code clamps it to the
tighter [4, 10]), oxygen in [0, 100], turbidity in [0, 200]. -/
theorem generate_reading_within_hard_bounds (rsin : ℚ → ℚ) (rpi : ℚ) (ds : ℕ → ℚ)
    (tid minute_of_day_value now_mod day_idx : ℤ) (ctx : SimCtx) :
    (0 ≤ (generate_reading rsin rpi ds tid minute_of_day_value now_mod day_idx ctx).1.temperature ∧
      (generate_reading rsin rpi ds tid minute_of_day_value now_mod day_idx ctx).1.temperature ≤ 50) ∧
    (0 ≤ (generate_reading rsin rpi ds tid minute_of_day_value now_mod day_idx ctx).1.ph ∧
      (generate_reading rsin rpi ds tid minute_of_day_value now_mod day_idx ctx).1.ph ≤ 14) ∧
    (0 ≤ (generate_reading rsin rpi ds tid minute_of_day_value now_mod day_idx ctx).1.oxygen ∧
      (generate_reading rsin rpi ds tid minute_of_day_value now_mod day_idx ctx).1.oxygen ≤ 100) ∧
    (0 ≤ (generate_reading rsin rpi ds tid minute_of_day_value now_mod day_idx ctx).1.turbidity ∧
      (generate_reading rsin rpi ds tid minute_of_day_value now_mod day_idx ctx).1.turbidity ≤ 200) := by
  obtain ⟨v, hv⟩ := generate_reading_fst_eq_clamp rsin rpi ds tid minute_of_day_value
    now_mod day_idx ctx
  rw [hv]
  simp only [clampValues]
  have ht := clamp_bounds v.temperature 0.0 50.0 (by norm_num)
  have hp := clamp_bounds v.ph 4.0 10.0 (by norm_num)
  have ho := clamp_bounds v.oxygen 0.0 100.0 (by norm_num)
  have hb := clamp_bounds v.turbidity 0.0 200.0 (by norm_num)
  refine ⟨⟨?_, ?_⟩, ⟨?_, ?_⟩, ⟨?_, ?_⟩, ⟨?_, ?_⟩⟩ <;>
    linarith [ht.1, ht.2, hp.1, hp.2, ho.1, ho.2, hb.1, hb.2]

/-- Number of active feeding events in a tank's event list. -/
def countFeeding (evs : List Event) : ℕ :=
  (evs.filter (fun e => e.name = "feeding")).length

theorem countFeeding_filter_le (p : Event → Bool) (l : List Event) :
    countFeeding (l.filter p) ≤ countFeeding l := by
  induction l with
  | nil => simp [countFeeding]
  | cons a l ih =>
    by_cases hp : p a = true <;> by_cases hf : a.name = "feeding" <;>
      simp [countFeeding, List.filter_cons, hp, hf] at * <;> omega

theorem countFeeding_decay_le (evs : List Event) :
    countFeeding (_decay_events evs) ≤ countFeeding evs := by
  unfold _decay_events
  refine le_trans (countFeeding_filter_le _ _) (le_of_eq ?_)
  induction evs with
  | nil => rfl
  | cons a l ih =>
    by_cases hf : a.name = "feeding" <;>
      simp [countFeeding, List.filter_cons, hf] at * <;> omega

theorem countFeeding_append_single (evs : List Event) (e : Event) :
    countFeeding (evs ++ [e]) =
      countFeeding evs + (if e.name = "feeding" then 1 else 0) := by
  by_cases hf : e.name = "feeding" <;>
    simp [countFeeding, List.filter_append, List.filter_cons, hf]


theorem countFeeding_eq_zero_of_any_false (evs : List Event)
    (h : evs.any (fun e => e.name = "feeding") = false) : countFeeding evs = 0 := by
  induction evs with
  | nil => rfl
  | cons a l ih =>
    simp only [List.any_cons, Bool.or_eq_false_iff] at h
    have h1 : (decide (a.name = "feeding")) = false := h.1
    simp only [countFeeding, List.filter_cons, h1, Bool.false_eq_true, if_false]
    exact ih h.2

theorem any_feeding_of_countFeeding_pos (evs : List Event)
    (h : 1 ≤ countFeeding evs) : evs.any (fun e => e.name = "feeding") = true := by
  cases hb : evs.any (fun e => e.name = "feeding") with
  | true => rfl
  | false => have := countFeeding_eq_zero_of_any_false evs hb; omega

/-- The feeding-window loop never creates a second feeding event: if one is
already active it leaves the list unchanged. -/
theorem startFeedingFold_of_feeding_active (times : List ℤ) (mod : ℤ)
    (evs : List Event) (h : 1 ≤ countFeeding evs) :
    startFeedingFold mod times evs = evs := by
  have ha := any_feeding_of_countFeeding_pos evs h
  induction times with
  | nil => rfl
  | cons t ts ih =>
    simp only [startFeedingFold, List.foldl_cons] at *
    have hstep : (if |mod - t| ≤ 5 then
        (if ¬ evs.any (fun e => e.name = "feeding") then
          evs ++ [⟨"feeding", _ticks_for_minutes FEED_EVENT_MIN, 1.0⟩]
        else evs)
      else evs) = evs := by
      by_cases h1 : |mod - t| ≤ 5
      · rw [if_pos h1, if_neg (by simp [ha])]
      · rw [if_neg h1]
    rw [hstep]
    exact ih

/-- The feeding-window loop preserves "at most one feeding event". -/
theorem countFeeding_startFold_le_one (times : List ℤ) (mod : ℤ)
    (evs : List Event) (h : countFeeding evs ≤ 1) :
    countFeeding (startFeedingFold mod times evs) ≤ 1 := by
  induction times generalizing evs with
  | nil => exact h
  | cons t ts ih =>
    simp only [startFeedingFold, List.foldl_cons] at *
    by_cases h1 : |mod - t| ≤ 5
    · by_cases h2 : evs.any (fun e => e.name = "feeding") = true
      · rw [if_pos h1, if_neg (by simp [h2])]
        exact ih evs h
      · rw [if_pos h1, if_pos (by simpa using h2)]
        refine ih _ ?_
        rw [countFeeding_append_single,
          countFeeding_eq_zero_of_any_false evs (by simpa using h2)]
        simp
    · rw [if_neg h1]
      exact ih evs h

/-- Starting an aerator failure cannot add a feeding event. -/
theorem countFeeding_per_tick_le_one (ds : ℕ → ℚ) (n : ℕ) (mod : ℤ)
    (evs : List Event) (h : countFeeding evs ≤ 1) :
    countFeeding (_maybe_start_event_per_tick ds n mod evs).1 ≤ 1 := by
  have hfold := countFeeding_startFold_le_one FEED_TIMES_MIN mod evs h
  simp only [_maybe_start_event_per_tick]
  split_ifs
  · rw [countFeeding_append_single]
    simpa using hfold
  · exact hfold

/-- The daily water-renewal draw cannot add a feeding event. -/
theorem countFeeding_daily_le_one (ds : ℕ → ℚ) (n : ℕ) (st : SimState)
    (evs : List Event) (day_idx : ℤ) (h : countFeeding evs ≤ 1) :
    countFeeding (_maybe_start_event_daily ds n st evs day_idx).2.1 ≤ 1 := by
  simp only [_maybe_start_event_daily]
  split_ifs
  · rw [countFeeding_append_single]
    simpa using h
  · exact h
  · exact h

/-- One simulator tick preserves "at most one active feeding event". -/
theorem countFeeding_step_le_one (rsin : ℚ → ℚ) (rpi : ℚ) (ds : ℕ → ℚ)
    (tid minute_of_day_value now_mod day_idx : ℤ) (ctx : SimCtx)
    (h : countFeeding ctx.evs ≤ 1) :
    countFeeding (generate_reading rsin rpi ds tid minute_of_day_value now_mod
      day_idx ctx).2.evs ≤ 1 := by
  have hEvs : (generate_reading rsin rpi ds tid minute_of_day_value now_mod
      day_idx ctx).2.evs =
      (_maybe_start_event_per_tick ds
        (_maybe_start_event_daily ds ctx.n ctx.st (_decay_events ctx.evs) day_idx).2.2
        now_mod
        (_maybe_start_event_daily ds ctx.n ctx.st (_decay_events ctx.evs) day_idx).2.1).1 :=
    rfl
  rw [hEvs]
  refine countFeeding_per_tick_le_one _ _ _ _ ?_
  refine countFeeding_daily_le_one _ _ _ _ _ ?_
  exact le_trans (countFeeding_decay_le _) h

/-- A sequence of `generate_reading` calls for one tank, each step supplying
its wall-clock inputs `(minute_of_day_value, now_mod, day_idx)`; the per-tank
state, event list, and PRNG cursor are threaded through. -/
def runSim (rsin : ℚ → ℚ) (rpi : ℚ) (ds : ℕ → ℚ) (tid : ℤ)
    (steps : List (ℤ × ℤ × ℤ)) (ctx : SimCtx) : SimCtx :=
  steps.foldl (fun ctx s => (generate_reading rsin rpi ds tid s.1 s.2.1 s.2.2 ctx).2) ctx

/-- C10: the scheduler starts a feeding event only when none is active (an
active feeding event leaves the feeding-window loop a no-op), so along every
sequence of simulator ticks a tank's active-event list never holds two
feeding events — while nothing restricts the number of concurrent
aerator-failure events. -/
theorem at_most_one_feeding_event (rsin : ℚ → ℚ) (rpi : ℚ) (ds : ℕ → ℚ)
    (tid : ℤ) (steps : List (ℤ × ℤ × ℤ)) (ctx : SimCtx)
    (h : countFeeding ctx.evs ≤ 1) :
    (∀ mod evs, 1 ≤ countFeeding evs →
      startFeedingFold mod FEED_TIMES_MIN evs = evs) ∧
    countFeeding (runSim rsin rpi ds tid steps ctx).evs ≤ 1 := by
  refine ⟨fun mod evs hpos => startFeedingFold_of_feeding_active _ mod evs hpos, ?_⟩
  induction steps generalizing ctx with
  | nil => exact h
  | cons s ss ih =>
    simp only [runSim, List.foldl_cons] at *
    exact ih _ (countFeeding_step_le_one rsin rpi ds tid s.1 s.2.1 s.2.2 ctx h)

/-- Witness for `at_most_one_feeding_event`: one tick from the initial
(empty) event list of tank 1. -/
theorem at_most_one_feeding_event_witness :
    countFeeding ([] : List Event) ≤ 1 ∧
    countFeeding (runSim (fun _ => 0) 3 (fun _ => 0) 1 [(480, 480, 0)]
      ⟨_ensure_state 1, [], 0⟩).evs ≤ 1 :=
  ⟨by decide,
   (at_most_one_feeding_event (fun _ => 0) 3 (fun _ => 0) 1 [(480, 480, 0)]
      ⟨_ensure_state 1, [], 0⟩ (by decide)).2⟩

/-! ## Genetic feed optimizer (src/infrastructure/ai/genetic_feed_optimizer.py)

`math.exp` and `math.log1p` are the parameters `rexp` and `rlog1p`.  The
PRNG `random.Random(cfg.seed)` is the draw stream `streamOfSeed cfg.seed`;
`uniform`/`gauss`/`sample` consume draws sequentially, each being an
arbitrary deterministic function of its raw draws (sufficient because the
verified properties hold for arbitrary draw values).  The integer
hyperparameters (`pop_size`, `max_generations`, `tournament_k`) are embedded
as `ℕ`, matching their use as collection sizes and `range` bounds. -/

structure GAConfig where
  pop_size : ℕ := 28
  max_generations : ℕ := 60
  tournament_k : ℕ := 2
  crossover_alpha_min : ℚ := 0.15
  crossover_alpha_max : ℚ := 0.85
  mutation_sigma : ℚ := 0.25
  elite_frac : ℚ := 0.12
  stagnation_patience : ℤ := 12
  seed : ℤ := 42
  min_g : ℚ := 0.5
  max_g : ℚ := 5.0
  sweet_g : ℚ := 2.8
  waste_weight : ℚ := 1.0
deriving DecidableEq, Repr

/-- `_clamp` (the optimizer's own clamp helper). -/
def _clamp (x lo hi : ℚ) : ℚ := max lo (min hi x)

/-- `_range_score`: 1 inside `[lo, hi]`, exponential falloff
`exp(-d/soft)` outside, `d` the distance to the nearest bound. -/
def _range_score (rexp : ℚ → ℚ) (x lo hi soft : ℚ) : ℚ :=
  if lo ≤ x ∧ x ≤ hi then 1.0
  else rexp (-(min |x - lo| |x - hi|) / soft)

/-- The `s_temp` sub-score of `_env_multiplier`. -/
def s_temp_score (rexp : ℚ → ℚ) (temp : ℚ) : ℚ :=
  _range_score rexp temp temp_min temp_max 2.5

/-- The `s_ph` sub-score of `_env_multiplier`. -/
def s_ph_score (rexp : ℚ → ℚ) (ph : ℚ) : ℚ :=
  _range_score rexp ph ph_min ph_max 0.6

/-- The `s_oxy` sub-score of `_env_multiplier`: three-regime ramp — hard
floor at/below 30 %, linear ramp up to the recommended minimum, then a
saturating band above it. -/
def s_oxy_score (oxy : ℚ) : ℚ :=
  if oxy ≤ 30 then 0.10
  else if oxy < oxygen_min then
    0.30 + 0.70 * (oxy - 30.0) / max (oxygen_min - 30.0) (1/1000000)
  else 0.80 + 0.20 * _clamp ((oxy - oxygen_min) / 30.0) 0.0 1.0

/-- The `s_turb` sub-score of `_env_multiplier`: step penalties. -/
def s_turb_score (turb : ℚ) : ℚ :=
  if turb ≤ 20 then (1.0 : ℚ)
  else if turb ≤ turbidez_max then 0.85
  else if turb ≤ 100 then 0.60
  else 0.35

/-- The `dens_s` sub-score of `_env_multiplier`: step penalties by band. -/
def dens_s_score (dens : ℚ) : ℚ :=
  if dens ≤ 20 then (1.00 : ℚ)
  else if dens ≤ 25 then 0.92
  else if dens ≤ 35 then 0.75
  else if dens ≤ 50 then 0.55
  else 0.40

/-- `_env_multiplier`: weighted combination (weights 0.28, 0.18, 0.28,
0.12, 0.14) of the five per-metric sub-scores, clipped to [0, 1]. -/
def _env_multiplier (rexp : ℚ → ℚ) (temp ph oxy turb dens : ℚ) : ℚ :=
  _clamp (s_temp_score rexp temp * 0.28 + s_ph_score rexp ph * 0.18 +
    s_oxy_score oxy * 0.28 + s_turb_score turb * 0.12 + dens_s_score dens * 0.14)
    0.0 1.0

/-- `_score_candidate`: `log1p(g)·env_multiplier − waste_pen(g)`, the waste
penalty quadratic above the sweet spot. -/
def _score_candidate (rexp rlog1p : ℚ → ℚ) (g : ℚ)
    (temp ph oxy turb dens : ℚ) (cfg : GAConfig) : ℚ :=
  let g := _clamp g cfg.min_g cfg.max_g
  let growth_benefit := rlog1p g
  let env_mult := _env_multiplier rexp temp ph oxy turb dens
  let waste_pen :=
    if g ≤ cfg.sweet_g then (0 : ℚ)
    else cfg.waste_weight * ((g - cfg.sweet_g) / (cfg.max_g - cfg.sweet_g + 1/1000000))^2
  growth_benefit * env_mult - waste_pen

/-- `random.gauss(mu, sigma)` as a deterministic function of one raw draw. -/
def gauss (d mu sigma : ℚ) : ℚ := mu + sigma * d

/-- `random.sample(pop, 2)`: two draws pick two distinct positions. -/
def sample_two (d1 d2 : ℚ) (pop : List ℚ) : ℚ × ℚ :=
  let i := (Int.natAbs ⌊d1⌋) % pop.length
  let j0 := (Int.natAbs ⌊d2⌋) % (pop.length - 1)
  let j := if j0 ≥ i then j0 + 1 else j0
  (pop.getD i 0, pop.getD j 0)

/-- The `tournament_pick` closure: `a, b = rnd.sample(pop, tournament_k)`
followed by keeping the fitter.  The two-name unpacking succeeds only when
`tournament_k = 2`, and `sample` requires the sample size not to exceed the
population size; anything else raises. -/
def tournament_pick (ds : ℕ → ℚ) (n : ℕ) (pop : List ℚ) (evalScore : ℚ → ℚ)
    (cfg : GAConfig) : Except String (ℚ × ℕ) :=
  if cfg.tournament_k = 2 ∧ cfg.tournament_k ≤ pop.length then
    let p := sample_two (ds n) (ds (n+1)) pop
    if evalScore p.1 ≥ evalScore p.2 then .ok (p.1, n+2) else .ok (p.2, n+2)
  else .error "ValueError: sample/unpack"

/-- The `while len(new_pop) < pop_size` child-generation loop, with enough
fuel to reach `pop_size` (each pass appends exactly one child). -/
def fill_pop (ds : ℕ → ℚ) (pop : List ℚ) (evalScore : ℚ → ℚ) (cfg : GAConfig) :
    ℕ → List ℚ → ℕ → Except String (List ℚ × ℕ)
  | 0, new_pop, n => .ok (new_pop, n)
  | fuel+1, new_pop, n =>
    if new_pop.length < cfg.pop_size then
      match tournament_pick ds n pop evalScore cfg with
      | .error e => .error e
      | .ok p1 =>
        match tournament_pick ds p1.2 pop evalScore cfg with
        | .error e => .error e
        | .ok p2 =>
          let alpha := uniform (ds p2.2) cfg.crossover_alpha_min cfg.crossover_alpha_max
          let child := alpha * p1.1 + (1.0 - alpha) * p2.1
          let child := child + gauss (ds (p2.2 + 1)) 0.0 cfg.mutation_sigma
          let child := _clamp child cfg.min_g cfg.max_g
          fill_pop ds pop evalScore cfg fuel (new_pop ++ [child]) (p2.2 + 2)
    else .ok (new_pop, n)

/-- `sorted(..., key=score, reverse=True)`: a descending sort on the score
component (insertion sort; which stable sort is used is irrelevant to the
verified properties). -/
def sort_desc (scored : List (ℚ × ℚ)) : List (ℚ × ℚ) :=
  scored.insertionSort (fun a b => a.2 ≥ b.2)

/-- The `for gen in range(max_generations)` loop of `optimize_feed`,
with fuel = remaining generations.  Returns
`(best_g, best_s, history, pop, cursor)`. -/
def ga_loop (ds : ℕ → ℚ) (evalScore : ℚ → ℚ) (cfg : GAConfig) (elite_n : ℕ) :
    ℕ → List ℚ → Option ℚ → ℚ → ℕ → List ℚ → ℕ →
    Except String (Option ℚ × ℚ × List ℚ × List ℚ × ℕ)
  | 0, pop, best_g, best_s, _stag, hist, n => .ok (best_g, best_s, hist, pop, n)
  | fuel+1, pop, best_g, best_s, stag, hist, n =>
    let scored := sort_desc (pop.map (fun g => (g, evalScore g)))
    match scored.head? with
    | none => .error "IndexError: list index out of range"
    | some top =>
      let upd := if top.2 > best_s + 1/1000000000 then (some top.1, top.2, 0)
                 else (best_g, best_s, stag + 1)
      let hist' := hist ++ [upd.2.1]
      if (upd.2.2 : ℤ) ≥ cfg.stagnation_patience then
        .ok (upd.1, upd.2.1, hist', pop, n)
      else
        let elites := (scored.take elite_n).map (fun t => t.1)
        match fill_pop ds pop evalScore cfg cfg.pop_size elites n with
        | .error e => .error e
        | .ok pr => ga_loop ds evalScore cfg elite_n fuel pr.1 upd.1 upd.2.1 upd.2.2 hist' pr.2

/-- `max(pop, key=eval_score)` (raises on an empty population; keeps the
first of equals, as Python's `max` does). -/
def max_by_key (evalScore : ℚ → ℚ) : List ℚ → Except String ℚ
  | [] => .error "ValueError: max() arg is an empty sequence"
  | x :: xs => .ok (xs.foldl (fun acc y => if evalScore y > evalScore acc then y else acc) x)

structure GAResult where
  grams_per_fish : ℚ
  total_grams : ℚ
  score : ℚ
  env_multiplier : ℚ
  history : List ℚ
  converged : Bool
  generations : ℕ
deriving DecidableEq, Repr

/-- `optimize_feed`: seeded init of `pop_size` uniform dosages, the
generation loop (elitism, tournament selection, blend crossover, Gaussian
mutation, stagnation early-stop), final sweep over the last population, and
result assembly.  `weight_kg` is used only in the notes string. -/
def optimize_feed (rexp rlog1p : ℚ → ℚ) (streamOfSeed : ℤ → ℕ → ℚ)
    (fish_count : ℤ) (weight_kg density temperature ph oxygen turbidity : ℚ)
    (cfg : GAConfig) : Except String GAResult :=
  let ds := streamOfSeed cfg.seed
  let pop := (List.range cfg.pop_size).map (fun i => uniform (ds i) cfg.min_g cfg.max_g)
  let evalScore := fun x =>
    _score_candidate rexp rlog1p x temperature ph oxygen turbidity density cfg
  let elite_n := (max 1 (pyround (cfg.elite_frac * (cfg.pop_size : ℚ)))).toNat
  match ga_loop ds evalScore cfg elite_n cfg.max_generations pop none
      (-1000000000) 0 [] cfg.pop_size with
  | .error e => .error e
  | .ok res =>
    match max_by_key evalScore res.2.2.2.1 with
    | .error e => .error e
    | .ok final_best =>
      let final_score := evalScore final_best
      let upd := if final_score > res.2.1 then (some final_best, final_score)
                 else (res.1, res.2.1)
      match upd.1 with
      | none => .error "TypeError: float() argument must not be None"
      | some bg =>
        let env_mult := _env_multiplier rexp temperature ph oxygen turbidity density
        let total := bg * ((max 0 fish_count : ℤ) : ℚ)
        .ok { grams_per_fish := bg, total_grams := total, score := upd.2,
              env_multiplier := env_mult,
              history := res.2.2.1,
              converged := decide (res.2.2.1.length < cfg.max_generations),
              generations := res.2.2.1.length }

theorem pairwise_append_le (hist : List ℚ) (b : ℚ)
    (hp : hist.Pairwise (· ≤ ·)) (hb : ∀ x ∈ hist, x ≤ b) :
    (hist ++ [b]).Pairwise (· ≤ ·) := by
  rw [List.pairwise_append]
  exact ⟨hp, List.pairwise_singleton _ _, fun x hx y hy => by
    rcases List.mem_singleton.1 hy with rfl
    exact hb x hx⟩

/-- Along any successful run of the generation loop, the recorded
best-so-far history stays sorted (non-decreasing), because the best score is
only ever replaced by a strictly larger one. -/
theorem ga_loop_hist_mono (ds : ℕ → ℚ) (evalScore : ℚ → ℚ) (cfg : GAConfig)
    (elite_n : ℕ) :
    ∀ (fuel : ℕ) (pop : List ℚ) (best_g : Option ℚ) (best_s : ℚ) (stag : ℕ)
      (hist : List ℚ) (n : ℕ) res,
      ga_loop ds evalScore cfg elite_n fuel pop best_g best_s stag hist n = .ok res →
      hist.Pairwise (· ≤ ·) → (∀ x ∈ hist, x ≤ best_s) →
      res.2.2.1.Pairwise (· ≤ ·) := by
  intro fuel
  induction fuel with
  | zero =>
    intro pop bg bs stag hist n res h hp _hb
    simp only [ga_loop] at h
    cases h
    exact hp
  | succ fuel ih =>
    intro pop bg bs stag hist n res h hp hb
    simp only [ga_loop] at h
    cases hhead : (sort_desc (pop.map fun g => (g, evalScore g))).head? with
    | none =>
      rw [hhead] at h
      exact absurd h (by simp)
    | some top =>
      rw [hhead] at h
      dsimp only at h
      have hble : ∀ b' : ℚ, bs ≤ b' →
          (hist ++ [b']).Pairwise (· ≤ ·) ∧ (∀ x ∈ hist ++ [b'], x ≤ b') := by
        intro b' hbb
        refine ⟨pairwise_append_le hist b' hp (fun x hx => le_trans (hb x hx) hbb), ?_⟩
        intro x hx
        rcases List.mem_append.1 hx with hx | hx
        · exact le_trans (hb x hx) hbb
        · rcases List.mem_singleton.1 hx with rfl; exact le_rfl
      split_ifs at h with hupd h0 h1
      · cases h
        exact (hble top.2 (by linarith)).1
      · cases hfp : fill_pop ds pop evalScore cfg cfg.pop_size
            (((sort_desc (pop.map fun g => (g, evalScore g))).take elite_n).map
              (fun t => t.1)) n with
        | error e =>
          rw [hfp] at h
          exact absurd h (by simp)
        | ok pr =>
          rw [hfp] at h
          dsimp only at h
          exact ih pr.1 (some top.1) top.2 0 (hist ++ [top.2]) pr.2 res h
            (hble top.2 (by linarith)).1 (hble top.2 (by linarith)).2
      · cases h
        exact (hble bs le_rfl).1
      · cases hfp : fill_pop ds pop evalScore cfg cfg.pop_size
            (((sort_desc (pop.map fun g => (g, evalScore g))).take elite_n).map
              (fun t => t.1)) n with
        | error e =>
          rw [hfp] at h
          exact absurd h (by simp)
        | ok pr =>
          rw [hfp] at h
          dsimp only at h
          exact ih pr.1 bg bs (stag + 1) (hist ++ [bs]) pr.2 res h
            (hble bs le_rfl).1 (hble bs le_rfl).2

/-- `optimize_feed` exposes the loop's history unchanged: any successful
result's history is the ga_loop history. -/
theorem optimize_feed_hist_pairwise (rexp rlog1p : ℚ → ℚ)
    (streamOfSeed : ℤ → ℕ → ℚ) (fish_count : ℤ)
    (weight_kg density temperature ph oxygen turbidity : ℚ)
    (cfg : GAConfig) (r : GAResult)
    (h : optimize_feed rexp rlog1p streamOfSeed fish_count weight_kg density
      temperature ph oxygen turbidity cfg = .ok r) :
    r.history.Pairwise (· ≤ ·) := by
  simp only [optimize_feed] at h
  cases hga : ga_loop (streamOfSeed cfg.seed)
      (fun x => _score_candidate rexp rlog1p x temperature ph oxygen turbidity
        density cfg) cfg
      ((max 1 (pyround (cfg.elite_frac * (cfg.pop_size : ℚ)))).toNat
      ) cfg.max_generations
      ((List.range cfg.pop_size).map
        (fun i => uniform (streamOfSeed cfg.seed i) cfg.min_g cfg.max_g))
      none (-1000000000) 0 [] cfg.pop_size with
  | error e =>
    rw [hga] at h
    exact absurd h (by simp)
  | ok res =>
    rw [hga] at h
    dsimp only at h
    have hpw : res.2.2.1.Pairwise (· ≤ ·) :=
      ga_loop_hist_mono _ _ cfg _ cfg.max_generations _ none (-1000000000) 0 [] cfg.pop_size
        res hga (List.Pairwise.nil) (by simp)
    cases hmax : max_by_key
        (fun x => _score_candidate rexp rlog1p x temperature ph oxygen turbidity
          density cfg) res.2.2.2.1 with
    | error e =>
      rw [hmax] at h
      exact absurd h (by simp)
    | ok fb =>
      rw [hmax] at h
      dsimp only at h
      split_ifs at h
      · cases h
        exact hpw
      · cases hbg : res.1 with
        | none =>
          rw [hbg] at h
          exact absurd h (by simp)
        | some bg =>
          rw [hbg] at h
          dsimp only at h
          cases h
          exact hpw

/-- C6: the best-fitness-so-far history recorded by `optimize_feed` is
monotonically non-decreasing: for all `i ≤ j` within one successful run,
`history[i] ≤ history[j]` — for any PRNG stream, any configuration and any
fixed environment inputs (elitism in the best-so-far tracking). -/
theorem optimize_feed_history_monotone (rexp rlog1p : ℚ → ℚ)
    (streamOfSeed : ℤ → ℕ → ℚ) (fish_count : ℤ)
    (weight_kg density temperature ph oxygen turbidity : ℚ)
    (cfg : GAConfig) (r : GAResult)
    (h : optimize_feed rexp rlog1p streamOfSeed fish_count weight_kg density
      temperature ph oxygen turbidity cfg = .ok r)
    (i j : ℕ) (hij : i ≤ j) (hj : j < r.history.length) :
    r.history.getD i 0 ≤ r.history.getD j 0 := by
  have hpw := optimize_feed_hist_pairwise rexp rlog1p streamOfSeed fish_count
    weight_kg density temperature ph oxygen turbidity cfg r h
  rcases Nat.lt_or_ge i j with hlt | hge
  · have hi : i < r.history.length := lt_trans hlt hj
    rw [List.getD_eq_get _ _ hi, List.getD_eq_get _ _ hj]
    exact List.pairwise_iff_get.1 hpw ⟨i, hi⟩ ⟨j, hj⟩ hlt
  · have : i = j := le_antisymm hij hge
    subst this
    exact le_rfl

/-- Witness for `optimize_feed_history_monotone`: a one-generation,
one-candidate run evaluated concretely. -/
theorem optimize_feed_history_monotone_witness :
    (optimize_feed (fun _ => 1) (fun x => x) (fun _ _ => 0) 10 1 10 26 7 100 10
        ⟨1, 1, 2, 0.15, 0.85, 0.25, 0.12, 12, 42, 1, 1, 5, 1⟩ =
      .ok ⟨1, 10, 1, 1, [1], false, 1⟩) ∧
    ((⟨1, 10, 1, 1, [1], false, 1⟩ : GAResult).history.getD 0 0 ≤
      (⟨1, 10, 1, 1, [1], false, 1⟩ : GAResult).history.getD 0 0) := by
  have heq : optimize_feed (fun _ => 1) (fun x => x) (fun _ _ => 0) 10 1 10 26 7 100 10
      ⟨1, 1, 2, 0.15, 0.85, 0.25, 0.12, 12, 42, 1, 1, 5, 1⟩ =
      .ok ⟨1, 10, 1, 1, [1], false, 1⟩ := by
    norm_num [optimize_feed, ga_loop, fill_pop, tournament_pick, sample_two, sort_desc,
      max_by_key, uniform, gauss, _clamp, _score_candidate, _env_multiplier, s_temp_score, s_ph_score, s_oxy_score, s_turb_score, dens_s_score, _range_score,
      pyround, temp_min, temp_max, ph_min, ph_max, oxygen_min, turbidez_max,
      List.insertionSort, List.orderedInsert, List.range_succ, Int.floor_eq_iff]
  exact ⟨heq, optimize_feed_history_monotone (fun _ => 1) (fun x => x) (fun _ _ => 0)
    10 1 10 26 7 100 10 ⟨1, 1, 2, 0.15, 0.85, 0.25, 0.12, 12, 42, 1, 1, 5, 1⟩
    ⟨1, 10, 1, 1, [1], false, 1⟩ heq 0 0 le_rfl (by norm_num)⟩

/-- C7: `optimize_feed` is deterministic — the explicit seed (part of the
config, from which the whole draw stream is derived) together with the
environment inputs fully determines the result: equal configs and equal
inputs give equal outputs, in particular the same `grams_per_fish`, `score`
and `history`.  In the embedding all randomness (initialization, tournament
draws, crossover alphas, mutation noise) is read off `streamOfSeed cfg.seed`,
mirroring the single `random.Random(cfg.seed)` instance of the code. -/
theorem optimize_feed_deterministic (rexp rlog1p : ℚ → ℚ)
    (streamOfSeed : ℤ → ℕ → ℚ) (fish₁ fish₂ : ℤ)
    (wk₁ wk₂ dens₁ dens₂ t₁ t₂ p₁ p₂ o₁ o₂ tb₁ tb₂ : ℚ) (cfg₁ cfg₂ : GAConfig)
    (hf : fish₁ = fish₂) (hw : wk₁ = wk₂) (hd : dens₁ = dens₂) (ht : t₁ = t₂)
    (hp : p₁ = p₂) (ho : o₁ = o₂) (htb : tb₁ = tb₂) (hcfg : cfg₁ = cfg₂) :
    optimize_feed rexp rlog1p streamOfSeed fish₁ wk₁ dens₁ t₁ p₁ o₁ tb₁ cfg₁ =
      optimize_feed rexp rlog1p streamOfSeed fish₂ wk₂ dens₂ t₂ p₂ o₂ tb₂ cfg₂ ∧
    ∀ r₁ r₂,
      optimize_feed rexp rlog1p streamOfSeed fish₁ wk₁ dens₁ t₁ p₁ o₁ tb₁ cfg₁ = .ok r₁ →
      optimize_feed rexp rlog1p streamOfSeed fish₂ wk₂ dens₂ t₂ p₂ o₂ tb₂ cfg₂ = .ok r₂ →
      r₁.grams_per_fish = r₂.grams_per_fish ∧ r₁.score = r₂.score ∧
        r₁.history = r₂.history := by
  subst hf hw hd ht hp ho htb hcfg
  refine ⟨rfl, fun r₁ r₂ h₁ h₂ => ?_⟩
  rw [h₁] at h₂
  cases h₂
  exact ⟨rfl, rfl, rfl⟩

/-- Witness for `optimize_feed_deterministic` at concrete equal inputs. -/
theorem optimize_feed_deterministic_witness :
    optimize_feed (fun _ => 1) (fun x => x) (fun _ _ => 0) 10 1 10 26 7 100 10
        ⟨1, 1, 2, 0.15, 0.85, 0.25, 0.12, 12, 42, 1, 1, 5, 1⟩ =
      optimize_feed (fun _ => 1) (fun x => x) (fun _ _ => 0) 10 1 10 26 7 100 10
        ⟨1, 1, 2, 0.15, 0.85, 0.25, 0.12, 12, 42, 1, 1, 5, 1⟩ :=
  (optimize_feed_deterministic (fun _ => 1) (fun x => x) (fun _ _ => 0) 10 10 1 1 10 10
    26 26 7 7 100 100 10 10 ⟨1, 1, 2, 0.15, 0.85, 0.25, 0.12, 12, 42, 1, 1, 5, 1⟩
    ⟨1, 1, 2, 0.15, 0.85, 0.25, 0.12, 12, 42, 1, 1, 5, 1⟩
    rfl rfl rfl rfl rfl rfl rfl rfl).1

/-- C2 counterexample: `GAConfig`/`optimize_feed` perform no structural
validation.  With `min_g = 5 > max_g = 0.5` (a structurally invalid search
interval) the optimizer does not fail fast: it initializes a population,
evaluates fitness, runs a full generation, and returns a result. -/
theorem optimize_feed_no_config_validation :
    optimize_feed (fun _ => 1) (fun x => x) (fun _ _ => 0) 10 1 10 26 7 100 10
        ⟨1, 1, 2, 0.15, 0.85, 0.25, 0.12, 12, 42, 5.0, 0.5, 5.0, 1.0⟩ =
      .ok ⟨5, 50, 5, 1, [5], false, 1⟩ := by
  norm_num [optimize_feed, ga_loop, fill_pop, tournament_pick, sample_two, sort_desc,
    max_by_key, uniform, gauss, _clamp, _score_candidate, _env_multiplier, s_temp_score, s_ph_score, s_oxy_score, s_turb_score, dens_s_score, _range_score,
    pyround, temp_min, temp_max, ph_min, ph_max, oxygen_min, turbidez_max,
    List.insertionSort, List.orderedInsert, List.range_succ, Int.floor_eq_iff]

theorem tournament_pick_ok (ds : ℕ → ℚ) (n : ℕ) (pop : List ℚ)
    (evalScore : ℚ → ℚ) (cfg : GAConfig)
    (hk : cfg.tournament_k = 2) (hlen : 2 ≤ pop.length) :
    ∃ x, tournament_pick ds n pop evalScore cfg = .ok (x, n+2) := by
  unfold tournament_pick
  rw [if_pos ⟨hk, by rw [hk]; exact hlen⟩]
  dsimp only
  split_ifs
  · exact ⟨_, rfl⟩
  · exact ⟨_, rfl⟩

/-- The child-generation loop always succeeds with a full population when
the tournament can draw (k = 2 ≤ population) and it is given enough fuel. -/
theorem fill_pop_ok (ds : ℕ → ℚ) (pop : List ℚ) (evalScore : ℚ → ℚ)
    (cfg : GAConfig) (hk : cfg.tournament_k = 2) (hlen : 2 ≤ pop.length) :
    ∀ (fuel : ℕ) (new_pop : List ℚ) (n : ℕ),
      new_pop.length ≤ cfg.pop_size → cfg.pop_size ≤ new_pop.length + fuel →
      ∃ l m, fill_pop ds pop evalScore cfg fuel new_pop n = .ok (l, m) ∧
        l.length = cfg.pop_size := by
  intro fuel
  induction fuel with
  | zero =>
    intro new_pop n h1 h2
    exact ⟨new_pop, n, rfl, le_antisymm h1 (by omega)⟩
  | succ fuel ih =>
    intro new_pop n h1 h2
    simp only [fill_pop]
    by_cases hlt : new_pop.length < cfg.pop_size
    · rw [if_pos hlt]
      obtain ⟨x1, hx1⟩ := tournament_pick_ok ds n pop evalScore cfg hk hlen
      rw [hx1]
      dsimp only
      obtain ⟨x2, hx2⟩ := tournament_pick_ok ds (n+2) pop evalScore cfg hk hlen
      rw [hx2]
      dsimp only
      refine ih _ _ ?_ ?_ <;> simp only [List.length_append, List.length_singleton] <;> omega
    · rw [if_neg hlt]
      exact ⟨new_pop, n, rfl, by omega⟩

theorem mem_sort_desc_snd (pop : List ℚ) (evalScore : ℚ → ℚ) (p : ℚ × ℚ)
    (hp : p ∈ sort_desc (pop.map fun g => (g, evalScore g))) :
    p.2 = evalScore p.1 := by
  have hmem : p ∈ pop.map (fun g => (g, evalScore g)) :=
    (List.perm_insertionSort _ _).mem_iff.1 hp
  obtain ⟨g, _, hg⟩ := List.mem_map.1 hmem
  rw [← hg]

theorem sort_desc_length (l : List (ℚ × ℚ)) : (sort_desc l).length = l.length :=
  (List.perm_insertionSort _ _).length_eq

theorem sort_desc_head_some (pop : List ℚ) (evalScore : ℚ → ℚ) (h : pop ≠ []) :
    ∃ top, (sort_desc (pop.map fun g => (g, evalScore g))).head? = some top ∧
      top.2 = evalScore top.1 := by
  cases hs : sort_desc (pop.map fun g => (g, evalScore g)) with
  | nil =>
    have := sort_desc_length (pop.map fun g => (g, evalScore g))
    rw [hs] at this
    simp at this
    exact absurd (List.length_eq_zero.1 this.symm) h
  | cons a t =>
    refine ⟨a, rfl, mem_sort_desc_snd pop evalScore a ?_⟩
    rw [hs]
    exact List.mem_cons_self a t

/-- The generation loop itself never fails when the tournament can draw
(`tournament_k = 2 ≤ pop_size`): it returns a full population, a best
candidate that is either set or untouched, and a history that grows by at
least one entry per available generation. -/
theorem ga_loop_ok (ds : ℕ → ℚ) (evalScore : ℚ → ℚ) (cfg : GAConfig) (elite_n : ℕ)
    (hk : cfg.tournament_k = 2) (hps : 2 ≤ cfg.pop_size) :
    ∀ (fuel : ℕ) (pop : List ℚ) (bg : Option ℚ) (bs : ℚ) (stag : ℕ)
      (hist : List ℚ) (n : ℕ),
      pop.length = cfg.pop_size →
      ∃ res, ga_loop ds evalScore cfg elite_n fuel pop bg bs stag hist n = .ok res ∧
        res.2.2.2.1.length = cfg.pop_size ∧
        (res.1.isSome = true ∨ (res.1 = bg ∧ res.2.1 = bs)) ∧
        hist.length ≤ res.2.2.1.length ∧
        (1 ≤ fuel → hist.length < res.2.2.1.length) := by
  intro fuel
  induction fuel with
  | zero =>
    intro pop bg bs stag hist n hpop
    exact ⟨(bg, bs, hist, pop, n), rfl, hpop, Or.inr ⟨rfl, rfl⟩, le_rfl, by omega⟩
  | succ fuel ih =>
    intro pop bg bs stag hist n hpop
    have hne : pop ≠ [] := by
      intro he
      rw [he] at hpop
      simp at hpop
      omega
    have hlen2 : 2 ≤ pop.length := by rw [hpop]; exact hps
    obtain ⟨top, hhead, -⟩ := sort_desc_head_some pop evalScore hne
    have helen : (((sort_desc (pop.map fun g => (g, evalScore g))).take elite_n).map
        (fun t => t.1)).length ≤ cfg.pop_size := by
      have : (((sort_desc (pop.map fun g => (g, evalScore g))).take elite_n).map
          (fun t => t.1)).length = min elite_n cfg.pop_size := by
        simp [List.length_take, sort_desc_length, hpop]
      rw [this]
      exact min_le_right _ _
    simp only [ga_loop]
    rw [hhead]
    dsimp only
    split_ifs with hupd h0 h1
    · exact ⟨_, rfl, hpop, Or.inl rfl, by simp, fun _ => by simp⟩
    · obtain ⟨l, m, hfp, hl⟩ := fill_pop_ok ds pop evalScore cfg hk hlen2
        cfg.pop_size _ n helen (by omega)
      rw [hfp]
      dsimp only
      obtain ⟨res, hga, hplen, hdis, hle, _hlt⟩ := ih l (some top.1) top.2 0
        (hist ++ [top.2]) m hl
      refine ⟨res, hga, hplen, ?_, ?_, fun _ => ?_⟩
      · rcases hdis with hs | ⟨h1', _⟩
        · exact Or.inl hs
        · exact Or.inl (by rw [h1']; rfl)
      · exact le_trans (by simp) hle
      · exact lt_of_lt_of_le (by simp) hle
    · exact ⟨_, rfl, hpop, Or.inr ⟨rfl, rfl⟩, by simp, fun _ => by simp⟩
    · obtain ⟨l, m, hfp, hl⟩ := fill_pop_ok ds pop evalScore cfg hk hlen2
        cfg.pop_size _ n helen (by omega)
      rw [hfp]
      dsimp only
      obtain ⟨res, hga, hplen, hdis, hle, _hlt⟩ := ih l bg bs (stag + 1)
        (hist ++ [bs]) m hl
      refine ⟨res, hga, hplen, hdis, ?_, fun _ => ?_⟩
      · exact le_trans (by simp) hle
      · exact lt_of_lt_of_le (by simp) hle

/-- C2 (amended): `optimize_feed` performs no structural validation of its
configuration.  Even when `min_g ≥ max_g` (a structurally invalid search
interval), as long as the loop's own operations can execute at all
(`tournament_k = 2 ≤ pop_size`, at least one generation, and candidate
scores above the `-1e9` sentinel, as is the case for the real `log1p`/`exp`),
it initializes a population, evaluates fitness, runs at least one full
generation and returns a result instead of raising a configuration error. -/
theorem optimize_feed_runs_without_validation (rexp rlog1p : ℚ → ℚ)
    (streamOfSeed : ℤ → ℕ → ℚ) (fish_count : ℤ)
    (weight_kg density temperature ph oxygen turbidity : ℚ) (cfg : GAConfig)
    (hk : cfg.tournament_k = 2) (hps : 2 ≤ cfg.pop_size)
    (hmg : 1 ≤ cfg.max_generations) (hinv : cfg.max_g ≤ cfg.min_g)
    (hscore : ∀ x : ℚ, -1000000000 + 1/1000000000 <
      _score_candidate rexp rlog1p x temperature ph oxygen turbidity density cfg) :
    ∃ r, optimize_feed rexp rlog1p streamOfSeed fish_count weight_kg density
        temperature ph oxygen turbidity cfg = .ok r ∧ 1 ≤ r.generations := by
  simp only [optimize_feed]
  have hpop : ((List.range cfg.pop_size).map
      (fun i => uniform (streamOfSeed cfg.seed i) cfg.min_g cfg.max_g)).length =
      cfg.pop_size := by simp
  obtain ⟨res, hga, hplen, hdis, _hle, hlt⟩ := ga_loop_ok (streamOfSeed cfg.seed)
    (fun x => _score_candidate rexp rlog1p x temperature ph oxygen turbidity density cfg)
    cfg ((max 1 (pyround (cfg.elite_frac * (cfg.pop_size : ℚ)))).toNat) hk hps
    cfg.max_generations _ none (-1000000000) 0 [] cfg.pop_size hpop
  rw [hga]
  dsimp only
  obtain ⟨x, xs, hcons⟩ : ∃ x xs, res.2.2.2.1 = x :: xs := by
    cases hc : res.2.2.2.1 with
    | nil =>
      rw [hc] at hplen
      simp at hplen
      omega
    | cons a t => exact ⟨a, t, rfl⟩
  rw [hcons]
  dsimp only [max_by_key]
  have hgen : 1 ≤ res.2.2.1.length := hlt hmg
  split_ifs with hfin
  · exact ⟨_, rfl, hgen⟩
  · rcases hdis with hs | ⟨h1', h2'⟩
    · obtain ⟨bg, hbg⟩ := Option.isSome_iff_exists.1 hs
      rw [hbg]
      dsimp only
      exact ⟨_, rfl, hgen⟩
    · exfalso
      rw [h2'] at hfin
      exact hfin (lt_trans (by norm_num) (hscore _))

/-- Witness for `optimize_feed_runs_without_validation`: a concrete
configuration with `min_g = 5 > 0.5 = max_g` still runs. -/
theorem optimize_feed_runs_without_validation_witness :
    ∃ r, optimize_feed (fun _ => 1) (fun x => x) (fun _ _ => 0) 10 1 10 26 7 100 10
        ⟨2, 1, 2, 0.15, 0.85, 0.25, 0.12, 12, 42, 5.0, 0.5, 5.0, 1.0⟩ = .ok r ∧
      1 ≤ r.generations := by
  refine optimize_feed_runs_without_validation (fun _ => 1) (fun x => x) (fun _ _ => 0)
    10 1 10 26 7 100 10 ⟨2, 1, 2, 0.15, 0.85, 0.25, 0.12, 12, 42, 5.0, 0.5, 5.0, 1.0⟩
    rfl (by norm_num) (by norm_num) (by norm_num) ?_
  intro x
  have hcl : _clamp x 5.0 0.5 = 5 := by
    unfold _clamp
    rw [max_eq_left (le_trans (min_le_left _ _) (by norm_num))]
    norm_num
  norm_num [_score_candidate, hcl, _env_multiplier, s_temp_score, s_ph_score,
    s_oxy_score, s_turb_score, dens_s_score, _range_score, _clamp,
    temp_min, temp_max, ph_min, ph_max, oxygen_min, turbidez_max]

/-- C8 counterexample: the environment multiplier is NOT non-increasing as
oxygen moves further outside its ideal band.  With every other metric ideal,
moving oxygen from the band boundary 70 (inside) to 69 (outside) RAISES the
multiplier from 0.944 to 0.99509, because the oxygen sub-score jumps down
from ≈1.0 (top of the below-minimum ramp) to 0.80 (saturating regime) at the
recommended minimum.  (`rexp` is irrelevant here: temperature and pH are
inside their bands.) -/
theorem env_multiplier_not_monotone_at_oxygen_min :
    _env_multiplier (fun _ => 1) 26 7 70 10 10 <
      _env_multiplier (fun _ => 1) 26 7 69 10 10 := by
  norm_num [_env_multiplier, s_temp_score, s_ph_score, s_oxy_score, s_turb_score,
    dens_s_score, _range_score, _clamp, temp_min, temp_max, ph_min, ph_max,
    oxygen_min, turbidez_max]

theorem _clamp_bounds (x lo hi : ℚ) (h : lo ≤ hi) :
    lo ≤ _clamp x lo hi ∧ _clamp x lo hi ≤ hi := by
  unfold _clamp
  exact ⟨le_max_left _ _, max_le h (min_le_left _ _)⟩

theorem _clamp_mono (lo hi x y : ℚ) (h : x ≤ y) :
    _clamp x lo hi ≤ _clamp y lo hi :=
  max_le_max le_rfl (min_le_min le_rfl h)

/-- Outside the band and moving away above it, `_range_score` does not
increase (assuming `exp` is monotone and at most 1 on nonpositive inputs). -/
theorem range_score_anti_above (rexp : ℚ → ℚ) (hmono : Monotone rexp)
    (hle1 : ∀ t ≤ (0:ℚ), rexp t ≤ 1) (lo hi soft : ℚ) (hlohi : lo ≤ hi)
    (hsoft : 0 < soft) (x y : ℚ) (hx : hi ≤ x) (hxy : x ≤ y) :
    _range_score rexp y lo hi soft ≤ _range_score rexp x lo hi soft := by
  unfold _range_score
  by_cases hxin : lo ≤ x ∧ x ≤ hi
  · rw [if_pos hxin]
    by_cases hyin : lo ≤ y ∧ y ≤ hi
    · rw [if_pos hyin]
    · rw [if_neg hyin]
      have harg : -(min |y - lo| |y - hi|) / soft ≤ 0 := by
        apply div_nonpos_of_nonpos_of_nonneg _ (le_of_lt hsoft)
        have : (0:ℚ) ≤ min |y - lo| |y - hi| := le_min (abs_nonneg _) (abs_nonneg _)
        linarith
      have := hle1 _ harg
      linarith
  · rw [if_neg hxin]
    have hxgt : hi < x := by
      rcases lt_or_eq_of_le hx with hlt | heq
      · exact hlt
      · exact absurd ⟨heq ▸ hlohi, le_of_eq heq.symm⟩ hxin
    have hygt : hi < y := lt_of_lt_of_le hxgt hxy
    have hyin : ¬(lo ≤ y ∧ y ≤ hi) := fun hy => absurd hy.2 (not_le.2 hygt)
    rw [if_neg hyin]
    apply hmono
    have hminx : min |x - lo| |x - hi| = x - hi := by
      rw [abs_of_pos (by linarith : (0:ℚ) < x - lo), abs_of_pos (by linarith : (0:ℚ) < x - hi)]
      exact min_eq_right (by linarith)
    have hminy : min |y - lo| |y - hi| = y - hi := by
      rw [abs_of_pos (by linarith : (0:ℚ) < y - lo), abs_of_pos (by linarith : (0:ℚ) < y - hi)]
      exact min_eq_right (by linarith)
    rw [hminx, hminy]
    exact (div_le_div_right hsoft).2 (by linarith)

/-- Outside the band and moving away below it, `_range_score` does not
increase. -/
theorem range_score_anti_below (rexp : ℚ → ℚ) (hmono : Monotone rexp)
    (hle1 : ∀ t ≤ (0:ℚ), rexp t ≤ 1) (lo hi soft : ℚ) (hlohi : lo ≤ hi)
    (hsoft : 0 < soft) (x y : ℚ) (hx : x ≤ lo) (hxy : y ≤ x) :
    _range_score rexp y lo hi soft ≤ _range_score rexp x lo hi soft := by
  unfold _range_score
  by_cases hxin : lo ≤ x ∧ x ≤ hi
  · rw [if_pos hxin]
    by_cases hyin : lo ≤ y ∧ y ≤ hi
    · rw [if_pos hyin]
    · rw [if_neg hyin]
      have harg : -(min |y - lo| |y - hi|) / soft ≤ 0 := by
        apply div_nonpos_of_nonpos_of_nonneg _ (le_of_lt hsoft)
        have : (0:ℚ) ≤ min |y - lo| |y - hi| := le_min (abs_nonneg _) (abs_nonneg _)
        linarith
      have := hle1 _ harg
      linarith
  · rw [if_neg hxin]
    have hxlt : x < lo := by
      rcases lt_or_eq_of_le hx with hlt | heq
      · exact hlt
      · exact absurd ⟨le_of_eq heq.symm, heq ▸ hlohi⟩ hxin
    have hylt : y < lo := lt_of_le_of_lt hxy hxlt
    have hyin : ¬(lo ≤ y ∧ y ≤ hi) := fun hy => absurd hy.1 (not_le.2 hylt)
    rw [if_neg hyin]
    apply hmono
    have hminx : min |x - lo| |x - hi| = lo - x := by
      rw [abs_of_neg (by linarith : x - lo < 0), abs_of_neg (by linarith : x - hi < 0)]
      simp only [neg_sub]
      exact min_eq_left (by linarith)
    have hminy : min |y - lo| |y - hi| = lo - y := by
      rw [abs_of_neg (by linarith : y - lo < 0), abs_of_neg (by linarith : y - hi < 0)]
      simp only [neg_sub]
      exact min_eq_left (by linarith)
    rw [hminx, hminy]
    exact (div_le_div_right hsoft).2 (by linarith)

/-- Below the recommended minimum, the oxygen sub-score is non-decreasing in
oxygen (so it does not increase as oxygen falls further). -/
theorem s_oxy_score_mono_below (x y : ℚ) (hxy : x ≤ y) (hy : y < oxygen_min) :
    s_oxy_score x ≤ s_oxy_score y := by
  unfold s_oxy_score
  rw [oxygen_min] at *
  split_ifs <;>
    first
    | linarith
    | (norm_num; linarith)

/-- The turbidity sub-score is non-increasing in turbidity. -/
theorem s_turb_score_anti (x y : ℚ) (hxy : x ≤ y) :
    s_turb_score y ≤ s_turb_score x := by
  unfold s_turb_score
  rw [turbidez_max]
  split_ifs <;> norm_num <;> linarith

/-- The stocking-density sub-score is non-increasing in density. -/
theorem dens_s_score_anti (x y : ℚ) (hxy : x ≤ y) :
    dens_s_score y ≤ dens_s_score x := by
  unfold dens_s_score
  split_ifs <;> norm_num <;> linarith

/-- C8 (amended): the environment multiplier always lies in [0, 1] (its five
weights 0.28+0.18+0.28+0.12+0.14 sum to 1 and the result is clipped), and it
is non-increasing as a metric moves further outside its ideal band with the
others fixed — for temperature and pH on either side of the band, for
turbidity and stocking density everywhere, and for oxygen only while it
stays strictly below the recommended minimum: at the oxygen minimum itself
the sub-score drops discontinuously (≈1.0 just below, 0.80 at the bound), so
crossing from the band boundary to just outside can raise the multiplier
(see the counterexample).  `rexp` models `math.exp`: monotone and at most 1
on nonpositive arguments. -/
theorem env_multiplier_bounds_and_band_monotone (rexp : ℚ → ℚ)
    (hmono : Monotone rexp) (hle1 : ∀ t ≤ (0:ℚ), rexp t ≤ 1)
    (temp ph oxy turb dens : ℚ) :
    (0 ≤ _env_multiplier rexp temp ph oxy turb dens ∧
      _env_multiplier rexp temp ph oxy turb dens ≤ 1) ∧
    (∀ x y, temp_max ≤ x → x ≤ y →
      _env_multiplier rexp y ph oxy turb dens ≤
        _env_multiplier rexp x ph oxy turb dens) ∧
    (∀ x y, x ≤ temp_min → y ≤ x →
      _env_multiplier rexp y ph oxy turb dens ≤
        _env_multiplier rexp x ph oxy turb dens) ∧
    (∀ x y, ph_max ≤ x → x ≤ y →
      _env_multiplier rexp temp y oxy turb dens ≤
        _env_multiplier rexp temp x oxy turb dens) ∧
    (∀ x y, x ≤ ph_min → y ≤ x →
      _env_multiplier rexp temp y oxy turb dens ≤
        _env_multiplier rexp temp x oxy turb dens) ∧
    (∀ x y, x ≤ y → y < oxygen_min →
      _env_multiplier rexp temp ph x turb dens ≤
        _env_multiplier rexp temp ph y turb dens) ∧
    (∀ x y, x ≤ y →
      _env_multiplier rexp temp ph oxy y dens ≤
        _env_multiplier rexp temp ph oxy x dens) ∧
    (∀ x y, x ≤ y →
      _env_multiplier rexp temp ph oxy turb y ≤
        _env_multiplier rexp temp ph oxy turb x) := by
  refine ⟨?_, ?_, ?_, ?_, ?_, ?_, ?_, ?_⟩
  · have h := _clamp_bounds (s_temp_score rexp temp * 0.28 + s_ph_score rexp ph * 0.18 +
      s_oxy_score oxy * 0.28 + s_turb_score turb * 0.12 + dens_s_score dens * 0.14)
      0.0 1.0 (by norm_num)
    exact ⟨by simp only [_env_multiplier]; linarith [h.1],
           by simp only [_env_multiplier]; linarith [h.2]⟩
  · intro x y hx hxy
    simp only [_env_multiplier]
    apply _clamp_mono
    have hs : s_temp_score rexp y ≤ s_temp_score rexp x := by
      simp only [s_temp_score]
      exact range_score_anti_above rexp hmono hle1 temp_min temp_max 2.5
        (by norm_num [temp_min, temp_max]) (by norm_num) x y hx hxy
    linarith
  · intro x y hx hxy
    simp only [_env_multiplier]
    apply _clamp_mono
    have hs : s_temp_score rexp y ≤ s_temp_score rexp x := by
      simp only [s_temp_score]
      exact range_score_anti_below rexp hmono hle1 temp_min temp_max 2.5
        (by norm_num [temp_min, temp_max]) (by norm_num) x y hx hxy
    linarith
  · intro x y hx hxy
    simp only [_env_multiplier]
    apply _clamp_mono
    have hs : s_ph_score rexp y ≤ s_ph_score rexp x := by
      simp only [s_ph_score]
      exact range_score_anti_above rexp hmono hle1 ph_min ph_max 0.6
        (by norm_num [ph_min, ph_max]) (by norm_num) x y hx hxy
    linarith
  · intro x y hx hxy
    simp only [_env_multiplier]
    apply _clamp_mono
    have hs : s_ph_score rexp y ≤ s_ph_score rexp x := by
      simp only [s_ph_score]
      exact range_score_anti_below rexp hmono hle1 ph_min ph_max 0.6
        (by norm_num [ph_min, ph_max]) (by norm_num) x y hx hxy
    linarith
  · intro x y hxy hy
    simp only [_env_multiplier]
    apply _clamp_mono
    have hs : s_oxy_score x ≤ s_oxy_score y := s_oxy_score_mono_below x y hxy hy
    linarith
  · intro x y hxy
    simp only [_env_multiplier]
    apply _clamp_mono
    have hs : s_turb_score y ≤ s_turb_score x := s_turb_score_anti x y hxy
    linarith
  · intro x y hxy
    simp only [_env_multiplier]
    apply _clamp_mono
    have hs : dens_s_score y ≤ dens_s_score x := dens_s_score_anti x y hxy
    linarith

/-- Witness for `env_multiplier_bounds_and_band_monotone`, at `rexp = 1`
(monotone, ≤ 1) and ideal inputs. -/
theorem env_multiplier_bounds_and_band_monotone_witness :
    0 ≤ _env_multiplier (fun _ => 1) 26 7 80 10 10 ∧
    _env_multiplier (fun _ => 1) 26 7 80 10 10 ≤ 1 :=
  (env_multiplier_bounds_and_band_monotone (fun _ => 1) monotone_const
    (fun _ _ => le_rfl) 26 7 80 10 10).1

/-! ## recommend_feed_plan (genetic_feed_optimizer.py)

Meal times are modelled as minutes from local midnight of the current day
(`+1440` when the slot has already passed, as `next_occurrence` moves it to
tomorrow); `now_min` stands for the wall clock.  The meal labels are the
source's labels without diacritics. -/

def next_occurrence (now_min h m : ℕ) : ℕ :=
  let t := h * 60 + m
  if t ≤ now_min then t + 1440 else t

structure Meal where
  time : ℕ
  label : String
  grams_per_fish : ℚ
  total_grams : ℚ
deriving DecidableEq, Repr

structure FeedPlan where
  grams_per_fish : ℚ
  total_grams : ℚ
  base_feed_rate_percent : ℚ
  adjusted_feed_rate_percent : ℚ
  env_multiplier : ℚ
  meals : List Meal
  per_meal_grams_per_fish : ℚ
deriving DecidableEq, Repr

/-- The plan-assembly tail of `recommend_feed_plan` (from the practical
per-fish clamp onward): meal count and slots from the environment
multiplier, even split across meals, and the result record. -/
def assemble_plan (fish_count : ℤ) (base_fr adjusted_fr env_mult g0 : ℚ)
    (now_min : ℕ) : FeedPlan :=
  let grams_per_fish := max 0.1 (min 10.0 g0)
  let total_grams := grams_per_fish * ((max 0 fish_count : ℤ) : ℚ)
  let ms : ℕ × List (ℕ × ℕ × String) :=
    if env_mult ≥ 0.85 then (3, [(8, 0, "manha"), (14, 0, "tarde"), (20, 0, "noite")])
    else if env_mult ≥ 0.60 then (2, [(9, 0, "manha"), (18, 0, "tarde")])
    else (1, [(9, 0, "manha")])
  let per_meal := grams_per_fish / (ms.1 : ℚ)
  let meals := (ms.2.take ms.1).map (fun s =>
    ({ time := next_occurrence now_min s.1 s.2.1, label := s.2.2,
       grams_per_fish := per_meal,
       total_grams := per_meal * (fish_count : ℚ) } : Meal))
  { grams_per_fish := grams_per_fish, total_grams := total_grams,
    base_feed_rate_percent := base_fr, adjusted_feed_rate_percent := adjusted_fr,
    env_multiplier := env_mult, meals := meals,
    per_meal_grams_per_fish := per_meal }

/-- `recommend_feed_plan`: weight-bucketed reference feed rate, environment
adjustment, optional 60/40 blend with the GA dosage, then `assemble_plan`
(practical clamp, meal schedule, even split). -/
def recommend_feed_plan (rexp rlog1p : ℚ → ℚ) (streamOfSeed : ℤ → ℕ → ℚ)
    (fish_count : ℤ) (weight_kg density temperature ph oxygen turbidity : ℚ)
    (use_ga : Bool) (ga_cfg : GAConfig) (now_min : ℕ) : Except String FeedPlan :=
  let w := max 0.01 weight_kg
  let base_fr : ℚ :=
    if w < 0.020 then 4.5
    else if w < 0.050 then 3.0
    else if w < 0.100 then 2.2
    else if w < 0.250 then 1.6
    else if w < 0.500 then 1.2
    else if w < 1.000 then 1.0
    else 0.8
  let env_mult := _env_multiplier rexp temperature ph oxygen turbidity density
  let adjusted_fr := base_fr * env_mult
  let g_table := (adjusted_fr / 100.0) * (w * 1000.0)
  let gpf : Except String ℚ :=
    if use_ga then
      match optimize_feed rexp rlog1p streamOfSeed fish_count w density
          temperature ph oxygen turbidity ga_cfg with
      | .error e => .error e
      | .ok ga_out => .ok (0.6 * ga_out.grams_per_fish + 0.4 * g_table)
    else .ok g_table
  match gpf with
  | .error e => .error e
  | .ok g0 => .ok (assemble_plan fish_count base_fr adjusted_fr env_mult g0 now_min)

theorem match_ok_inv (e : Except String ℚ) (f : ℚ → FeedPlan) (plan : FeedPlan)
    (h : (match e with
          | .error err => Except.error err
          | .ok g0 => Except.ok (f g0)) = .ok plan) :
    ∃ g0, plan = f g0 := by
  cases e with
  | error err => exact absurd h (by simp)
  | ok g0 =>
    refine ⟨g0, ?_⟩
    cases h
    rfl

/-- All three consistency facts hold of the assembled plan. -/
theorem assemble_plan_consistent (fish_count : ℤ) (base_fr adjusted_fr env_mult g0 : ℚ)
    (now_min : ℕ) (hfc : 0 ≤ fish_count) :
    (assemble_plan fish_count base_fr adjusted_fr env_mult g0 now_min).total_grams =
      (assemble_plan fish_count base_fr adjusted_fr env_mult g0 now_min).grams_per_fish *
        (fish_count : ℚ) ∧
    ((assemble_plan fish_count base_fr adjusted_fr env_mult g0 now_min).meals.map
      (fun meal => meal.total_grams)).sum =
      (assemble_plan fish_count base_fr adjusted_fr env_mult g0 now_min).total_grams ∧
    (assemble_plan fish_count base_fr adjusted_fr env_mult g0 now_min).meals.length ≠ 0 ∧
    (∀ meal ∈ (assemble_plan fish_count base_fr adjusted_fr env_mult g0 now_min).meals,
      meal.grams_per_fish =
        (assemble_plan fish_count base_fr adjusted_fr env_mult g0 now_min).grams_per_fish /
        ((assemble_plan fish_count base_fr adjusted_fr env_mult g0 now_min).meals.length : ℚ)) := by
  have hmax : ((max 0 fish_count : ℤ) : ℚ) = (fish_count : ℚ) := by
    rw [max_eq_right hfc]
  simp only [assemble_plan]
  split_ifs with h85 h60 <;>
    refine ⟨by rw [hmax], ?_, by norm_num, ?_⟩ <;>
    simp [hmax] <;> ring

/-- C9: every plan returned by `recommend_feed_plan` (for a nonnegative fish
count — the only counts the validated tanks supply) satisfies: total grams =
grams-per-fish × fish count (exactly, in the rational model); the meals'
totals sum to the plan total; and the per-fish dosage is split evenly — each
meal carries grams_per_fish / (number of meals). -/
theorem recommend_feed_plan_consistent (rexp rlog1p : ℚ → ℚ)
    (streamOfSeed : ℤ → ℕ → ℚ) (fish_count : ℤ)
    (weight_kg density temperature ph oxygen turbidity : ℚ)
    (use_ga : Bool) (ga_cfg : GAConfig) (now_min : ℕ) (plan : FeedPlan)
    (hfc : 0 ≤ fish_count)
    (h : recommend_feed_plan rexp rlog1p streamOfSeed fish_count weight_kg density
      temperature ph oxygen turbidity use_ga ga_cfg now_min = .ok plan) :
    plan.total_grams = plan.grams_per_fish * (fish_count : ℚ) ∧
    (plan.meals.map (fun meal => meal.total_grams)).sum = plan.total_grams ∧
    plan.meals.length ≠ 0 ∧
    (∀ meal ∈ plan.meals,
      meal.grams_per_fish = plan.grams_per_fish / (plan.meals.length : ℚ)) := by
  simp only [recommend_feed_plan] at h
  obtain ⟨g0, hplan⟩ := match_ok_inv _ _ plan h
  rw [hplan]
  exact assemble_plan_consistent fish_count _ _ _ g0 now_min hfc

/-- Witness for `recommend_feed_plan_consistent`: the table-only path
(`use_ga = false`) at ideal conditions and a 2 kg fish weight (table dosage
16 g clamps to the practical maximum 10 g/fish). -/
theorem recommend_feed_plan_consistent_witness :
    (recommend_feed_plan (fun _ => 1) (fun x => x) (fun _ _ => 0) 10 2 10 26 7 100 10
        false ⟨1, 1, 2, 0.15, 0.85, 0.25, 0.12, 12, 42, 1, 1, 5, 1⟩ 0 =
      .ok ⟨10, 100, 0.8, 0.8, 1,
        [⟨480, "manha", 10/3, 100/3⟩, ⟨840, "tarde", 10/3, 100/3⟩,
         ⟨1200, "noite", 10/3, 100/3⟩], 10/3⟩) ∧
    ((⟨10, 100, 0.8, 0.8, 1,
        [⟨480, "manha", 10/3, 100/3⟩, ⟨840, "tarde", 10/3, 100/3⟩,
         ⟨1200, "noite", 10/3, 100/3⟩], 10/3⟩ : FeedPlan).total_grams =
      (⟨10, 100, 0.8, 0.8, 1,
        [⟨480, "manha", 10/3, 100/3⟩, ⟨840, "tarde", 10/3, 100/3⟩,
         ⟨1200, "noite", 10/3, 100/3⟩], 10/3⟩ : FeedPlan).grams_per_fish * ((10:ℤ) : ℚ)) := by
  have heq : recommend_feed_plan (fun _ => 1) (fun x => x) (fun _ _ => 0) 10 2 10 26 7 100 10
      false ⟨1, 1, 2, 0.15, 0.85, 0.25, 0.12, 12, 42, 1, 1, 5, 1⟩ 0 =
      .ok ⟨10, 100, 0.8, 0.8, 1,
        [⟨480, "manha", 10/3, 100/3⟩, ⟨840, "tarde", 10/3, 100/3⟩,
         ⟨1200, "noite", 10/3, 100/3⟩], 10/3⟩ := by
    norm_num [recommend_feed_plan, assemble_plan, next_occurrence, _env_multiplier,
      s_temp_score, s_ph_score, s_oxy_score, s_turb_score, dens_s_score, _range_score,
      _clamp, temp_min, temp_max, ph_min, ph_max, oxygen_min, turbidez_max]
  exact ⟨heq, (recommend_feed_plan_consistent (fun _ => 1) (fun x => x) (fun _ _ => 0)
    10 2 10 26 7 100 10 false ⟨1, 1, 2, 0.15, 0.85, 0.25, 0.12, 12, 42, 1, 1, 5, 1⟩ 0
    _ (by norm_num) heq).1⟩
